import Mathlib

/-!
Shallow embedding of the FormalChip property-synthesis pipeline.

Each definition below is a direct translation of a function of the Python
source (file and function named in its doc comment).  Python strings are
Lean `String`s, Python lists are Lean `List`s, Python sets of signal names
are Lean `List String` used through membership only, and Python `None`
is `Option.none`.  Definitions whose name ends in `_claim…` are instead
written from the words of a specification claim, for comparison with the
source-derived definition.
-/

/-- Python `\s` / `str.strip` whitespace class (space, tab, newline,
carriage return, vertical tab, form feed). -/
def pyIsSpace (c : Char) : Bool :=
  c = ' ' || c = '\t' || c = '\n' || c = '\r' || c = '\x0b' || c = '\x0c'

/-- Python `str.lower` restricted to ASCII, which is all the source feeds it. -/
def lowerStr (s : String) : String :=
  ⟨s.data.map Char.toLower⟩

/-- Contiguous-sublist test on character lists, by scanning every start
position (the semantics of Python's substring `in`). -/
def containsList (pat : List Char) : List Char → Bool
  | [] => pat.isEmpty
  | c :: rest => List.isPrefixOf pat (c :: rest) || containsList pat rest

/-- Python `needle in hay` substring test. -/
def containsSub (hay pat : String) : Bool :=
  containsList pat.data hay.data

/-- Python `any(tok in lower for tok in toks)`. -/
def any_token (lower : String) (toks : List String) : Bool :=
  toks.any (fun tok => containsSub lower tok)

/-- `formalchip/parsers.py`, `_detect_status`: the status cascade run on the
lowercased log text, including the conservative substring fallback. -/
def detect_status (text : String) : String :=
  let lower := lowerStr text
  if any_token lower ["status: error", " done (error", "\nerror:", "sby error"] then "error"
  else if any_token lower ["status: failed", " done (fail", "counterexample", "assert failed"] then "fail"
  else if any_token lower ["status: passed", " done (pass", "all properties proven", "success"] then "pass"
  else if containsSub lower "status: unknown" || containsSub lower " done (unknown" then "unknown"
  else if containsSub lower "error" then "error"
  else if containsSub lower "fail" then "fail"
  else if containsSub lower "pass" then "pass"
  else "unknown"

/-- Status cascade exactly as claim C3 words it: the `error` tier holds only
the three tokens `status: error`, `" done (error"`, `sby error`; later tiers
and the lone-token fallback as in the claim. -/
def detect_status_claimC3 (text : String) : String :=
  let lower := lowerStr text
  if any_token lower ["status: error", " done (error", "sby error"] then "error"
  else if any_token lower ["status: failed", " done (fail", "counterexample", "assert failed"] then "fail"
  else if any_token lower ["status: passed", " done (pass", "all properties proven", "success"] then "pass"
  else if containsSub lower "status: unknown" || containsSub lower " done (unknown" then "unknown"
  else if containsSub lower "error" then "error"
  else if containsSub lower "fail" then "fail"
  else if containsSub lower "pass" then "pass"
  else "unknown"

/-- Claim C3 amended: the `error` tier additionally holds the code's fourth
token `"\nerror:"`; everything else as the claim words it. -/
def detect_status_claimC3_amended (text : String) : String :=
  let lower := lowerStr text
  if any_token lower ["status: error", " done (error", "\nerror:", "sby error"] then "error"
  else if any_token lower ["status: failed", " done (fail", "counterexample", "assert failed"] then "fail"
  else if any_token lower ["status: passed", " done (pass", "all properties proven", "success"] then "pass"
  else if containsSub lower "status: unknown" || containsSub lower " done (unknown" then "unknown"
  else if containsSub lower "error" then "error"
  else if containsSub lower "fail" then "fail"
  else if containsSub lower "pass" then "pass"
  else "unknown"

/-- Python `str.strip`: drop leading and trailing characters satisfying `p`. -/
def stripChars (p : Char → Bool) (l : List Char) : List Char :=
  ((l.dropWhile p).reverse.dropWhile p).reverse

/-- Python `str.strip()` (whitespace). -/
def strip (s : String) : String :=
  ⟨stripChars pyIsSpace s.data⟩

/-- Python `str.upper` restricted to ASCII. -/
def upperStr (s : String) : String :=
  ⟨s.data.map Char.toUpper⟩

/-- Python `s.startswith(p)`. -/
def startsWithStr (s p : String) : Bool :=
  List.isPrefixOf p.data s.data

/-- Split a character list on a separator character, keeping empty pieces. -/
def splitOnChar (sep : Char) : List Char → List (List Char)
  | [] => [[]]
  | c :: rest =>
    if c = sep then [] :: splitOnChar sep rest
    else
      match splitOnChar sep rest with
      | [] => [[c]]
      | piece :: more => (c :: piece) :: more

/-- Python `str.splitlines` for `\n`-separated text (the only separator the
source produces): split on `\n` and drop the empty piece a trailing newline
leaves behind. -/
def splitLinesPy (s : String) : List String :=
  if s.data.isEmpty then []
  else
    let pieces := splitOnChar '\n' s.data
    (if pieces.getLast? = some [] then pieces.dropLast else pieces).map (fun cs => ⟨cs⟩)

/-- Python `s.split(",")`. -/
def splitCommas (s : String) : List String :=
  (splitOnChar ',' s.data).map (fun cs => ⟨cs⟩)

/-- Python `sep.join(items)`. -/
def joinSep (sep : String) : List String → String
  | [] => ""
  | [x] => x
  | x :: rest => x ++ sep ++ joinSep sep rest

/-- ASCII decimal digit for `d < 10`. -/
def digitCh (d : Nat) : Char :=
  Char.ofNat (48 + d)

/-- Little-endian decimal digits of `n`, with explicit fuel (`fuel ≥ n`
suffices, and the callers pass `fuel = n`). -/
def digitsRevFuel : Nat → Nat → List Char
  | 0, _ => []
  | _, 0 => []
  | f + 1, n => digitCh (n % 10) :: digitsRevFuel f (n / 10)

/-- Python `str(n)` for a natural number. -/
def natReprPy (n : Nat) : String :=
  if n = 0 then "0" else ⟨(digitsRevFuel n n).reverse⟩

/-- Python `f"{n:03d}"` for a natural number: pad with zeros to width 3. -/
def pad3 (n : Nat) : String :=
  let s := natReprPy n
  if s.length < 3 then (⟨List.replicate (3 - s.length) '0'⟩ : String) ++ s else s

/-- Python `str(i)` for an integer. -/
def intReprPy (i : Int) : String :=
  if i < 0 then "-" ++ natReprPy i.natAbs else natReprPy i.natAbs

/-- Replace every occurrence of `pat` (non-empty) left to right, the
semantics of Python `str.replace`; fuel is the text length. -/
def replaceAllAux (pat rep : List Char) : Nat → List Char → List Char
  | _, [] => []
  | 0, l => l
  | f + 1, c :: rest =>
    if List.isPrefixOf pat (c :: rest) then
      rep ++ replaceAllAux pat rep f (List.drop (pat.length - 1) rest)
    else c :: replaceAllAux pat rep f rest

/-- Python `s.replace(pat, rep)` (all occurrences). -/
def replaceAllStr (s pat rep : String) : String :=
  if pat.data.isEmpty then s
  else ⟨replaceAllAux pat.data rep.data s.data.length s.data⟩

/-- Replace only the first occurrence of `pat` (non-empty). -/
def replaceFirstAux (pat rep : List Char) : Nat → List Char → List Char
  | _, [] => []
  | 0, l => l
  | f + 1, c :: rest =>
    if List.isPrefixOf pat (c :: rest) then rep ++ List.drop (pat.length - 1) rest
    else c :: replaceFirstAux pat rep f rest

/-- Replace the first occurrence of `pat` in `s` by `rep`. -/
def replaceFirstStr (s pat rep : String) : String :=
  if pat.data.isEmpty then s
  else ⟨replaceFirstAux pat.data rep.data s.data.length s.data⟩

/-- ASCII decimal digit test. -/
def isDigitCh (c : Char) : Bool :=
  '0' ≤ c && c ≤ '9'

/-- Python regex word / identifier character `[a-zA-Z0-9_]`. -/
def isIdentChar (c : Char) : Bool :=
  ('a' ≤ c && c ≤ 'z') || ('A' ≤ c && c ≤ 'Z') || isDigitCh c || c = '_'

/-- Identifier start `[a-zA-Z_]`. -/
def isIdentStart (c : Char) : Bool :=
  ('a' ≤ c && c ≤ 'z') || ('A' ≤ c && c ≤ 'Z') || c = '_'

/-- Value of a list of ASCII decimal digits (big-endian). -/
def decDigitsToNat (l : List Char) : Nat :=
  l.foldl (fun acc c => acc * 10 + (c.toNat - 48)) 0

/-- Python `int(v, 10)` on a stripped string: optional sign then decimal
digits; anything else is `none` (a `ValueError` in Python). -/
def pyIntDec (s : String) : Option Int :=
  match s.data with
  | [] => none
  | '-' :: rest => if rest ≠ [] && rest.all isDigitCh then some (-(decDigitsToNat rest : Int)) else none
  | '+' :: rest => if rest ≠ [] && rest.all isDigitCh then some ((decDigitsToNat rest : Int)) else none
  | l => if l.all isDigitCh then some ((decDigitsToNat l : Int)) else none

/-- Value of one hexadecimal digit, `none` if not a hex digit. -/
def hexDigitVal (c : Char) : Option Nat :=
  if '0' ≤ c && c ≤ '9' then some (c.toNat - 48)
  else if 'a' ≤ c && c ≤ 'f' then some (c.toNat - 87)
  else none

/-- Python `int(v, 16)` on a lowercased string already known to start with
`0x`: the digits after the prefix. -/
def pyIntHexTail (l : List Char) : Option Int :=
  if l ≠ [] && l.all (fun c => (hexDigitVal c).isSome) then
    some ((l.foldl (fun acc c => acc * 16 + ((hexDigitVal c).getD 0)) 0 : Nat) : Int)
  else none

/-- Python truthiness of an optional string (`None` and `""` are falsy). -/
def pyTruthy : Option String → Bool
  | none => false
  | some s => !s.data.isEmpty

/-- Python `a or b` for an optional string: `b` when `a` is `None`/empty. -/
def pyOr (a : Option String) (b : String) : String :=
  match a with
  | some s => if s.data.isEmpty then b else s
  | none => b

/-- Property kind, `formalchip/models.py` `PropertyCandidate.kind`. -/
inductive PropKind
  | assert
  | assume
  | cover
deriving DecidableEq, BEq

/-- Structured view of the untyped `SpecClause.metadata` mapping: the keys the
ingestors write and the synthesis engine reads (`formalchip/models.py`). -/
structure ClauseMetadata where
  register : Option String := none
  address : Option String := none
  address_int : Option Int := none
  reset : Option String := none
  access : Option String := none
  width : Option String := none
  signal : Option String := none
  sw_we_signal : Option String := none
  sw_addr_signal : Option String := none
  sw_addr_width : Option Nat := none
  condition : Option String := none
  guarantee : Option String := none
  rule_id : Option String := none
deriving DecidableEq

/-- `formalchip/models.py` `SpecClause`. -/
structure SpecClause where
  clause_id : String
  text : String
  source : String
  tags : List String := []
  metadata : ClauseMetadata := {}
deriving DecidableEq

/-- `formalchip/models.py` `PropertyCandidate`. -/
structure PropertyCandidate where
  prop_id : String
  name : String
  body : String
  kind : PropKind := .assert
  source_clause : Option String := none
  notes : Option String := none
deriving DecidableEq

/-- `formalchip/models.py` `IterationFeedback`. -/
structure IterationFeedback where
  status : String
  summary : String
  failed_properties : List String := []
  counterexamples : List String := []
  unsat_cores : List String := []
deriving DecidableEq

/-- `formalchip/spec/text_spec.py` `parse_text_spec`, inner loop: `counter`
is the number of clauses already emitted. -/
def parse_text_go (source : String) : Nat → List String → List SpecClause
  | _, [] => []
  | counter, raw :: rest =>
    let line := strip raw
    if line.data.isEmpty then parse_text_go source counter rest
    else if startsWithStr line "#" then parse_text_go source counter rest
    else
      let line2 := if startsWithStr line "-" then strip ⟨line.data.drop 1⟩ else line
      { clause_id := "text_" ++ pad3 (counter + 1), text := line2, source := source,
        tags := ["text"] } :: parse_text_go source (counter + 1) rest

/-- `formalchip/spec/text_spec.py` `parse_text_spec`: every non-blank,
non-`#` line of the file becomes one clause `text_NNN`, a leading `-`
stripped. `source` is the file path, `content` the file text. -/
def parse_text_spec (source content : String) : List SpecClause :=
  parse_text_go source 0 (splitLinesPy content)

/-- Options of a `register_csv` spec input (`formalchip/spec/register_csv.py`
`parse_register_csv`, `options` mapping). -/
structure RegCsvOptions where
  signal_template : String := "{name_lower}_q"
  sw_we_signal : Option String := none
  sw_addr_signal : Option String := none
  sw_addr_width : Nat := 32
deriving DecidableEq

/-- `formalchip/spec/register_csv.py` `_render_signal`:
`template.format(name=…, name_lower=…, name_upper=…)`. -/
def render_signal (template name : String) : String :=
  replaceAllStr
    (replaceAllStr (replaceAllStr template "{name}" name) "{name_lower}" (lowerStr name))
    "{name_upper}" (upperStr name)

/-- `formalchip/spec/register_csv.py` `_parse_int`: `0x`-prefixed hex or
decimal, `none` on anything else. -/
def parse_int (value : Option String) : Option Int :=
  match value with
  | none => none
  | some value =>
    let v := lowerStr (strip value)
    if v.data.isEmpty then none
    else if startsWithStr v "0x" then pyIntHexTail (v.data.drop 2)
    else pyIntDec v

/-- Python `dict.get` over a zipped CSV row. -/
def dictGet (d : List (String × String)) (k : String) : Option String :=
  (d.find? (fun p => p.1 == k)).map (fun p => p.2)

/-- Rows of `csv.DictReader` for the simple comma-separated, quote-free CSV
files the repository uses: first line is the header, blank lines are
skipped, each later line is zipped with the header keys. -/
def csv_dict_rows (content : String) : List (List (String × String)) :=
  match splitLinesPy content with
  | [] => []
  | header :: rest =>
    let keys := splitCommas header
    (rest.filter (fun l => !l.data.isEmpty)).map (fun l => keys.zip (splitCommas l))

/-- `formalchip/spec/register_csv.py` `parse_register_csv`, row loop; `idx`
counts rows already consumed. -/
def parse_register_go (path : String) (opts : RegCsvOptions) :
    Nat → List (List (String × String)) → List SpecClause
  | _, [] => []
  | idx0, row :: rest =>
    let idx := idx0 + 1
    let name := strip (pyOr (dictGet row "name") (pyOr (dictGet row "register") "reg"))
    let address := strip (pyOr (dictGet row "address") (pyOr (dictGet row "addr") ""))
    let reset := strip (pyOr (dictGet row "reset") (pyOr (dictGet row "reset_value") "0"))
    let access := lowerStr (strip (pyOr (dictGet row "access") (pyOr (dictGet row "sw_access") "rw")))
    let width := strip (pyOr (dictGet row "width") (pyOr (dictGet row "bits") "32"))
    let signal := render_signal opts.signal_template name
    let address_int := parse_int (some address)
    let reset_clause : SpecClause :=
      { clause_id := "reg_" ++ pad3 idx ++ "_reset",
        text := "Register " ++ name ++ " resets to " ++ reset ++ ".",
        source := path,
        tags := ["register", "reset"],
        metadata := { register := some name, address := some address,
                      address_int := address_int, reset := some reset,
                      access := some access, width := some width,
                      signal := some signal, sw_we_signal := opts.sw_we_signal,
                      sw_addr_signal := opts.sw_addr_signal,
                      sw_addr_width := some opts.sw_addr_width } }
    let ro_clauses : List SpecClause :=
      if ["ro", "read-only", "r"].contains access then
        [{ clause_id := "reg_" ++ pad3 idx ++ "_ro",
           text := "Register " ++ name ++ " is read-only from software interface.",
           source := path,
           tags := ["register", "access", "read_only"],
           metadata := { register := some name, address := some address,
                         address_int := address_int, signal := some signal,
                         access := some access, sw_we_signal := opts.sw_we_signal,
                         sw_addr_signal := opts.sw_addr_signal,
                         sw_addr_width := some opts.sw_addr_width } }]
      else []
    (reset_clause :: ro_clauses) ++ parse_register_go path opts idx rest

/-- `formalchip/spec/register_csv.py` `parse_register_csv`: one `*_reset`
clause per row, plus a `*_ro` clause when `access ∈ {ro, read-only, r}`. -/
def parse_register_csv (path : String) (opts : RegCsvOptions) (content : String) : List SpecClause :=
  parse_register_go path opts 0 (csv_dict_rows content)

/-- `formalchip/synthesis.py` `SynthesisInputs`. -/
structure SynthesisInputs where
  clock : String
  reset : String
  reset_active_low : Bool
  known_signals : List String := []
  signal_aliases : List (String × String) := []
deriving DecidableEq

/-- Option value of a library pattern / constraint mapping (string or
integer, mirroring the untyped TOML values). -/
inductive OptVal
  | s (v : String)
  | n (v : Int)
deriving DecidableEq, BEq

/-- `formalchip/config.py` `LibraryPattern`. -/
structure LibraryPattern where
  kind : String
  options : List (String × OptVal) := []
deriving DecidableEq

/-- Python `options.get(k)`. -/
def oget (o : List (String × OptVal)) (k : String) : Option OptVal :=
  (o.find? (fun p => p.1 == k)).map (fun p => p.2)

/-- Python `str(options.get(k, dflt))`. -/
def ogetStr (o : List (String × OptVal)) (k : String) (dflt : String) : String :=
  match oget o k with
  | some (.s v) => v
  | some (.n v) => intReprPy v
  | none => dflt

/-- Python `int(options.get(k, dflt))` (malformed strings raise in Python and
are outside the fragment the claims exercise). -/
def ogetInt (o : List (String × OptVal)) (k : String) (dflt : Int) : Int :=
  match oget o k with
  | some (.n v) => v
  | some (.s v) => (pyIntDec (strip v)).getD 0
  | none => dflt

/-- Python `options.get(k)` as an optional string (`note` handling). -/
def ogetOptStr (o : List (String × OptVal)) (k : String) : Option String :=
  match oget o k with
  | some (.s v) => some v
  | some (.n v) => some (intReprPy v)
  | none => none

/-- `formalchip/synthesis.py` `_SV_KEYWORDS`. -/
def SV_KEYWORDS : List String :=
  ["if", "else", "begin", "end", "disable", "iff", "posedge", "negedge",
   "property", "assert", "assume", "cover", "and", "or", "not", "true", "false"]

/-- `formalchip/synthesis.py` `_SV_SYSTEM_FUNCTIONS`. -/
def SV_SYSTEM_FUNCTIONS : List String :=
  ["past", "rose", "fell", "stable", "changed", "sampled", "countones",
   "isunknown", "onehot", "onehot0", "clog2", "bits", "signed", "unsigned"]

/-- `formalchip/synthesis.py` `SUPPORTED_LIBRARY_KINDS`. -/
def SUPPORTED_LIBRARY_KINDS : List String :=
  ["handshake", "fifo_safety", "reset_sequence", "inline", "canonical_10"]

/-- `formalchip/synthesis.py` `_sanitize_id`, step 1: each maximal run of
characters outside `[a-zA-Z0-9_]` becomes a single `_` (fuel-driven, fuel is
the text length). -/
def collapseNonWordAux : Nat → List Char → List Char
  | 0, l => l
  | _, [] => []
  | f + 1, c :: rest =>
    if isIdentChar c then c :: collapseNonWordAux f rest
    else '_' :: collapseNonWordAux f (rest.dropWhile (fun d => !isIdentChar d))

/-- Regex `_IDENTIFIER_RE.sub("_", value)`. -/
def collapseNonWord (l : List Char) : List Char :=
  collapseNonWordAux l.length l

/-- `formalchip/synthesis.py` `_sanitize_id`: collapse non-word runs to `_`,
strip `_`, guard empty and leading digit, lowercase. -/
def sanitize_id (value : String) : String :=
  let out := stripChars (fun c => c = '_') (collapseNonWord value.data)
  if out.isEmpty then "unnamed"
  else
    let out := match out with
      | c :: _ => if isDigitCh c then 'p' :: '_' :: out else out
      | [] => out
    lowerStr ⟨out⟩

/-- `formalchip/synthesis.py` `clocking`. -/
def clocking (clock : String) : String :=
  "posedge " ++ clock

/-- `formalchip/synthesis.py` `_reset_disable`. -/
def reset_disable (reset : String) (active_low : Bool) : String :=
  if active_low then "disable iff(!" ++ reset ++ ")" else "disable iff(" ++ reset ++ ")"

/-- `formalchip/synthesis.py` `_reset_asserted`. -/
def reset_asserted (reset : String) (active_low : Bool) : String :=
  if active_low then "!" ++ reset else reset

/-- `formalchip/synthesis.py` `_const_sv`. -/
def const_sv (value : String) (width : Nat) : String :=
  let v := lowerStr (strip value)
  if startsWithStr v "0x" then natReprPy width ++ "'h" ++ (⟨v.data.drop 2⟩ : String)
  else if !v.data.isEmpty && v.data.all isDigitCh then natReprPy width ++ "'d" ++ v
  else value

/-- `formalchip/synthesis.py` `_mk_property` (the `name` is sanitised). -/
def mk_property (prop_id name body : String) (kind : PropKind := .assert)
    (source_clause : Option String := none) (notes : Option String := none) : PropertyCandidate :=
  { prop_id := prop_id, name := sanitize_id name, body := body, kind := kind,
    source_clause := source_clause, notes := notes }

/-- `formalchip/synthesis.py` `_mk_assert`. -/
def mk_assert (prop_id name body : String) (source_clause : Option String := none)
    (notes : Option String := none) : PropertyCandidate :=
  mk_property prop_id name body .assert source_clause notes

/-- `formalchip/synthesis.py` `_placeholder_body`. -/
def placeholder_body (clock reset : String) (active_low : Bool) : String :=
  "@(" ++ clocking clock ++ ") " ++ reset_disable reset active_low ++ " 1'b1 |-> 1'b1;"

/-- `formalchip/synthesis.py` `_missing_signals`: empty when no signals are
known at all, otherwise the required names absent from `known_signals`. -/
def missing_signals (required : List String) (known_signals : List String) : List String :=
  if known_signals.isEmpty then []
  else required.filter (fun sig => !known_signals.contains sig)

/-- Python `dict` lookup in `signal_aliases`. -/
def aliasGet (aliases : List (String × String)) (k : String) : Option String :=
  (aliases.find? (fun p => p.1 == k)).map (fun p => p.2)

/-- `formalchip/synthesis.py` `_resolve_signal_name`: exact, lowercase then
uppercase alias lookup, else the name itself. -/
def resolve_signal_name (inputs : SynthesisInputs) (name : String) : String :=
  match aliasGet inputs.signal_aliases name with
  | some v => v
  | none =>
    match aliasGet inputs.signal_aliases (lowerStr name) with
    | some v => v
    | none =>
      match aliasGet inputs.signal_aliases (upperStr name) with
      | some v => v
      | none => name

/-- `formalchip/synthesis.py` `_required_signals`. -/
def required_signals (required : List String) (inputs : SynthesisInputs) : List String :=
  required.map (resolve_signal_name inputs)

/-- `formalchip/synthesis.py` `_fallback_assert`: the placeholder candidate. -/
def fallback_assert (clause : SpecClause) (name clock reset : String)
    (active_low : Bool) (reason : String) : PropertyCandidate :=
  mk_assert clause.clause_id name (placeholder_body clock reset active_low)
    (some clause.clause_id) (some reason)

/-- Tokeniser of `_TOKEN_RE` (`[A-Za-z_][A-Za-z0-9_]*`), fuel-driven. -/
def tokenizeIdentsAux : Nat → List Char → List String
  | 0, _ => []
  | _, [] => []
  | f + 1, c :: rest =>
    if isIdentStart c then
      (⟨c :: rest.takeWhile isIdentChar⟩ : String) :: tokenizeIdentsAux f (rest.dropWhile isIdentChar)
    else tokenizeIdentsAux f rest

/-- All identifier tokens of an expression (`_TOKEN_RE.findall`). -/
def tokenizeIdents (expr : String) : List String :=
  tokenizeIdentsAux expr.data.length expr.data

/-- Regex `^[dhbo][0-9a-fxz_]+$` of `_extract_identifiers` (base-literal
tails such as `d0`, `hff`). -/
def isBaseLiteralTail (s : String) : Bool :=
  match s.data with
  | c :: rest =>
    (c = 'd' || c = 'h' || c = 'b' || c = 'o') && !rest.isEmpty &&
      rest.all (fun d => isDigitCh d || ('a' ≤ d && d ≤ 'f') || d = 'x' || d = 'z' || d = '_')
  | [] => false

/-- `formalchip/synthesis.py` `_extract_identifiers`. -/
def extract_identifiers (expr : String) : List String :=
  (tokenizeIdents expr).filter (fun tok =>
    let low := lowerStr tok
    !SV_KEYWORDS.contains low && !SV_SYSTEM_FUNCTIONS.contains low && !isBaseLiteralTail low)

/-- `formalchip/synthesis.py` `_apply_aliases`, token-wise substitution. -/
def applyAliasesAux (inputs : SynthesisInputs) : Nat → List Char → List Char
  | 0, l => l
  | _, [] => []
  | f + 1, c :: rest =>
    if isIdentStart c then
      (resolve_signal_name inputs (⟨c :: rest.takeWhile isIdentChar⟩ : String)).data ++
        applyAliasesAux inputs f (rest.dropWhile isIdentChar)
    else c :: applyAliasesAux inputs f rest

/-- `formalchip/synthesis.py` `_apply_aliases`. -/
def apply_aliases (inputs : SynthesisInputs) (expr : String) : String :=
  if inputs.signal_aliases.isEmpty then expr
  else ⟨applyAliasesAux inputs expr.data.length expr.data⟩

/-- Python `sorted(set(l))` for strings: deduplicate, then sort. -/
def insertSorted (x : String) : List String → List String
  | [] => [x]
  | y :: rest => if decide (x ≤ y) then x :: y :: rest else y :: insertSorted x rest

/-- Deduplicate keeping first occurrences. -/
def dedupStrAux (seen : List String) : List String → List String
  | [] => []
  | x :: rest => if seen.contains x then dedupStrAux seen rest else x :: dedupStrAux (x :: seen) rest

/-- Python `sorted(set(l))`. -/
def sorted_set (l : List String) : List String :=
  (dedupStrAux [] l).foldr insertSorted []

/-- Literal piece of a regex pattern. -/
def matchLit (pat : String) (l : List Char) : Option (List Char) :=
  if List.isPrefixOf pat.data l then some (l.drop pat.data.length) else none

/-- One `[a-zA-Z_][a-zA-Z0-9_]*` group (greedy, which the source patterns
force since each group is followed by a non-word character). -/
def matchIdentTok (l : List Char) : Option (String × List Char) :=
  match l with
  | [] => none
  | c :: rest =>
    if isIdentStart c then some ((⟨c :: rest.takeWhile isIdentChar⟩ : String), rest.dropWhile isIdentChar)
    else none

/-- One `\s+` (greedy). -/
def matchWs (l : List Char) : Option (List Char) :=
  match l with
  | [] => none
  | c :: rest => if pyIsSpace c then some (rest.dropWhile pyIsSpace) else none

/-- One `(\d+)` group (greedy). -/
def matchDigits (l : List Char) : Option (Nat × List Char) :=
  match l with
  | [] => none
  | c :: rest =>
    if isDigitCh c then some (decDigitsToNat (c :: rest.takeWhile isDigitCh), rest.dropWhile isDigitCh)
    else none

/-- `re.search` driver: try `f` at every position left to right and keep the
first (leftmost) success. -/
def searchPos {α : Type} (f : List Char → Option α) : Nat → List Char → Option α
  | 0, _ => none
  | fuel + 1, l =>
    match f l with
    | some r => some r
    | none =>
      match l with
      | [] => none
      | _ :: rest => searchPos f fuel rest

/-- `re.search` over a string. -/
def regexSearch {α : Type} (f : List Char → Option α) (s : String) : Option α :=
  searchPos f (s.data.length + 1) s.data

/-- Greedy `.*` driver: try `f` at every position and keep the last
(rightmost) success. -/
def searchLast {α : Type} (f : List Char → Option α) : Nat → List Char → Option α
  | 0, _ => none
  | fuel + 1, l =>
    let tailBest :=
      match l with
      | [] => none
      | _ :: rest => searchLast f fuel rest
    match tailBest with
    | some r => some r
    | none => f l

/-- Pattern `if\s+(I)\s+then\s+(I)\s+next\s+cycle` at one position. -/
def if_then_next_at (l : List Char) : Option (String × String) := do
  let l ← matchLit "if" l
  let l ← matchWs l
  let (g1, l) ← matchIdentTok l
  let l ← matchWs l
  let l ← matchLit "then" l
  let l ← matchWs l
  let (g2, l) ← matchIdentTok l
  let l ← matchWs l
  let l ← matchLit "next" l
  let l ← matchWs l
  let _ ← matchLit "cycle" l
  pure (g1, g2)

/-- Pattern `never\s+(I)\s+and\s+(I)` at one position. -/
def never_and_at (l : List Char) : Option (String × String) := do
  let l ← matchLit "never" l
  let l ← matchWs l
  let (g1, l) ← matchIdentTok l
  let l ← matchWs l
  let l ← matchLit "and" l
  let l ← matchWs l
  let (g2, _) ← matchIdentTok l
  pure (g1, g2)

/-- Tail `within\s+(\d+)\s+cycles\s+` of the third pattern. -/
def within_tail_at (l : List Char) : Option (Nat × List Char) := do
  let l ← matchLit "within" l
  let l ← matchWs l
  let (n, l) ← matchDigits l
  let l ← matchWs l
  let l ← matchLit "cycles" l
  let l ← matchWs l
  pure (n, l)

/-- Greedy `.*(I)`: the group starts at the last identifier-start character. -/
def lastIdentCapture (l : List Char) : Option String :=
  searchLast (fun l2 => (matchIdentTok l2).map (fun p => p.1)) (l.length + 1) l

/-- Pattern `(I)\s+.*within\s+(\d+)\s+cycles\s+.*(I)` at one position, with
the greedy-`.*` backtracking semantics of `re`. -/
def within_at (l : List Char) : Option (String × Nat × String) := do
  let (g1, l) ← matchIdentTok l
  let l ← matchWs l
  let (n, g3) ← searchLast (fun l2 =>
      match within_tail_at l2 with
      | some (n, rest) =>
        match lastIdentCapture rest with
        | some g3 => some (n, g3)
        | none => none
      | none => none) (l.length + 1) l
  pure (g1, n, g3)

/-- Pattern `(I)\s+should\s+be\s+(low|high)\s+right\s+after\s+reset`. -/
def reset_level_at (l : List Char) : Option (String × String) := do
  let (g1, l) ← matchIdentTok l
  let l ← matchWs l
  let l ← matchLit "should" l
  let l ← matchWs l
  let l ← matchLit "be" l
  let l ← matchWs l
  let (lvl, l) ←
    (match matchLit "low" l with
     | some r => some ("low", r)
     | none =>
       match matchLit "high" l with
       | some r => some ("high", r)
       | none => none)
  let l ← matchWs l
  let l ← matchLit "right" l
  let l ← matchWs l
  let l ← matchLit "after" l
  let l ← matchWs l
  let _ ← matchLit "reset" l
  pure (g1, lvl)

/-- `formalchip/synthesis.py` `_text_clause_to_candidates`: the four regex
patterns tried in order on the lowercased clause text, with the
missing-signal placeholder policy. -/
def text_clause_to_candidates (clause : SpecClause) (inputs : SynthesisInputs) : List PropertyCandidate :=
  let text := strip clause.text
  let lower := lowerStr text
  let disable := reset_disable inputs.reset inputs.reset_active_low
  match regexSearch if_then_next_at lower with
  | some (a, b) =>
    let cond := resolve_signal_name inputs a
    let cons := resolve_signal_name inputs b
    let missing := missing_signals (required_signals [cond, cons] inputs) inputs.known_signals
    if !missing.isEmpty then
      [fallback_assert clause (clause.clause_id ++ "_placeholder") inputs.clock inputs.reset
        inputs.reset_active_low ("Signals not found in RTL: " ++ joinSep ", " missing)]
    else
      [mk_assert clause.clause_id (clause.clause_id ++ "_" ++ cond ++ "_implies_" ++ cons)
        ("@(" ++ clocking inputs.clock ++ ") " ++ disable ++ " " ++ cond ++ " |=> " ++ cons ++ ";")
        (some clause.clause_id)]
  | none =>
  match regexSearch never_and_at lower with
  | some (a, b) =>
    let a := resolve_signal_name inputs a
    let b := resolve_signal_name inputs b
    let missing := missing_signals (required_signals [a, b] inputs) inputs.known_signals
    if !missing.isEmpty then
      [fallback_assert clause (clause.clause_id ++ "_placeholder") inputs.clock inputs.reset
        inputs.reset_active_low ("Signals not found in RTL: " ++ joinSep ", " missing)]
    else
      [mk_assert clause.clause_id (clause.clause_id ++ "_never_" ++ a ++ "_" ++ b)
        ("@(" ++ clocking inputs.clock ++ ") " ++ disable ++ " !(" ++ a ++ " && " ++ b ++ ");")
        (some clause.clause_id)]
  | none =>
  match regexSearch within_at lower with
  | some (r, bound, a) =>
    let req := resolve_signal_name inputs r
    let ack := resolve_signal_name inputs a
    let missing := missing_signals (required_signals [req, ack] inputs) inputs.known_signals
    if !missing.isEmpty then
      [fallback_assert clause (clause.clause_id ++ "_placeholder") inputs.clock inputs.reset
        inputs.reset_active_low ("Signals not found in RTL: " ++ joinSep ", " missing)]
    else
      [mk_assert clause.clause_id
        (clause.clause_id ++ "_" ++ req ++ "_to_" ++ ack ++ "_" ++ natReprPy bound)
        ("@(" ++ clocking inputs.clock ++ ") " ++ disable ++ " " ++ req ++ " |-> ##[0:" ++
          natReprPy bound ++ "] " ++ ack ++ ";")
        (some clause.clause_id)]
  | none =>
  match regexSearch reset_level_at lower with
  | some (s, level) =>
    let sig := resolve_signal_name inputs s
    let missing := missing_signals (required_signals [sig] inputs) inputs.known_signals
    if !missing.isEmpty then
      [fallback_assert clause (clause.clause_id ++ "_placeholder") inputs.clock inputs.reset
        inputs.reset_active_low ("Signals not found in RTL: " ++ joinSep ", " missing)]
    else
      let expected := if level = "low" then "1'b0" else "1'b1"
      [mk_assert clause.clause_id (clause.clause_id ++ "_" ++ sig ++ "_reset_" ++ level)
        ("@(" ++ clocking inputs.clock ++ ") " ++ reset_asserted inputs.reset inputs.reset_active_low ++
          " |=> (" ++ sig ++ " == " ++ expected ++ ");")
        (some clause.clause_id)]
  | none =>
    [fallback_assert clause (clause.clause_id ++ "_placeholder") inputs.clock inputs.reset
      inputs.reset_active_low ("Unable to derive strict logic from clause: " ++ text)]

/-- `formalchip/synthesis.py` `_register_clause_to_candidates`: a `*_reset`
assertion per `reset`-tagged clause and a `*_ro` stability assertion per
`read_only`-tagged clause, each degrading to a placeholder when the signal
mapping is incomplete or unknown. -/
def register_clause_to_candidates (clause : SpecClause) (inputs : SynthesisInputs) : List PropertyCandidate :=
  let md := clause.metadata
  let reg := strip (md.register.getD "reg")
  let width := ((pyIntDec (strip (pyOr md.width "32"))).getD 0).toNat
  let reg_sig := resolve_signal_name inputs (pyOr md.signal (sanitize_id reg ++ "_q"))
  let reset_part : List PropertyCandidate :=
    if clause.tags.contains "reset" then
      let reset_value := md.reset.getD "0"
      let missing := missing_signals (required_signals [reg_sig] inputs) inputs.known_signals
      if !missing.isEmpty then
        [fallback_assert clause (clause.clause_id ++ "_" ++ reg_sig ++ "_reset_placeholder")
          inputs.clock inputs.reset inputs.reset_active_low
          ("Register signal mapping missing: " ++ joinSep ", " missing)]
      else
        [mk_assert clause.clause_id (clause.clause_id ++ "_" ++ reg_sig ++ "_reset")
          ("@(" ++ clocking inputs.clock ++ ") " ++ reset_asserted inputs.reset inputs.reset_active_low ++
            " |=> " ++ reg_sig ++ " == " ++ const_sv reset_value width ++ ";")
          (some clause.clause_id)]
    else []
  let ro_part : List PropertyCandidate :=
    if clause.tags.contains "read_only" then
      let sw_addr_width := md.sw_addr_width.getD 32
      if !(pyTruthy md.sw_we_signal && pyTruthy md.sw_addr_signal && pyTruthy md.address) then
        [fallback_assert clause (clause.clause_id ++ "_" ++ reg_sig ++ "_ro_placeholder")
          inputs.clock inputs.reset inputs.reset_active_low
          "Read-only check requires sw_we_signal, sw_addr_signal, and register address mapping."]
      else
        let sw_we_resolved := resolve_signal_name inputs (md.sw_we_signal.getD "")
        let sw_addr_resolved := resolve_signal_name inputs (md.sw_addr_signal.getD "")
        let missing := missing_signals
          (required_signals [sw_we_resolved, sw_addr_resolved, reg_sig] inputs) inputs.known_signals
        if !missing.isEmpty then
          [fallback_assert clause (clause.clause_id ++ "_" ++ reg_sig ++ "_ro_placeholder")
            inputs.clock inputs.reset inputs.reset_active_low
            ("Read-only mapping references unknown signals: " ++ joinSep ", " missing)]
        else
          let addr_const := const_sv (md.address.getD "") sw_addr_width
          [mk_assert clause.clause_id (clause.clause_id ++ "_" ++ reg_sig ++ "_ro")
            ("@(" ++ clocking inputs.clock ++ ") " ++ reset_disable inputs.reset inputs.reset_active_low ++
              " (" ++ sw_we_resolved ++ " && (" ++ sw_addr_resolved ++ " == " ++ addr_const ++
              ")) |-> $stable(" ++ reg_sig ++ ");")
            (some clause.clause_id)]
    else []
  reset_part ++ ro_part

/-- `formalchip/synthesis.py` `_rule_table_clause_to_candidates`. -/
def rule_table_clause_to_candidates (clause : SpecClause) (inputs : SynthesisInputs) : List PropertyCandidate :=
  let condition := apply_aliases inputs (strip (clause.metadata.condition.getD ""))
  let guarantee := apply_aliases inputs (strip (clause.metadata.guarantee.getD ""))
  let disable := reset_disable inputs.reset inputs.reset_active_low
  let (body, note) :=
    if condition.data.isEmpty || guarantee.data.isEmpty then
      (placeholder_body inputs.clock inputs.reset inputs.reset_active_low,
       some "Rule row missing condition or guarantee")
    else
      let required := extract_identifiers condition ++ extract_identifiers guarantee
      let missing := missing_signals (required_signals (sorted_set required) inputs) inputs.known_signals
      if !missing.isEmpty then
        (placeholder_body inputs.clock inputs.reset inputs.reset_active_low,
         some ("Rule references unknown signals: " ++ joinSep ", " missing))
      else
        ("@(" ++ clocking inputs.clock ++ ") " ++ disable ++ " (" ++ condition ++ ") |-> (" ++
           guarantee ++ ");", none)
  [mk_assert clause.clause_id (clause.clause_id ++ "_rule") body (some clause.clause_id) note]

/-- `formalchip/synthesis.py` `_inline_library_candidate`. -/
def inline_library_candidate (pattern : LibraryPattern) (inputs : SynthesisInputs) : List PropertyCandidate :=
  let o := pattern.options
  let expr := apply_aliases inputs (strip (ogetStr o "expr" ""))
  if expr.data.isEmpty then
    [mk_assert "lib_inline" (ogetStr o "name" "lib_inline_placeholder")
      (placeholder_body inputs.clock inputs.reset inputs.reset_active_low)
      none (some "Inline property requires `expr`")]
  else
    let when_ := apply_aliases inputs (strip (ogetStr o "when" ""))
    let required := extract_identifiers expr ++
      (if !when_.data.isEmpty then extract_identifiers when_ else [])
    let missing := missing_signals (required_signals (sorted_set required) inputs) inputs.known_signals
    if !missing.isEmpty then
      [mk_assert "lib_inline" (ogetStr o "name" "lib_inline_placeholder")
        (placeholder_body inputs.clock inputs.reset inputs.reset_active_low)
        none (some ("Inline property references unknown signals: " ++ joinSep ", " missing))]
    else
      let disable := reset_disable inputs.reset inputs.reset_active_low
      let body :=
        if !when_.data.isEmpty then
          "@(" ++ clocking inputs.clock ++ ") " ++ disable ++ " (" ++ when_ ++ ") |-> (" ++ expr ++ ");"
        else "@(" ++ clocking inputs.clock ++ ") " ++ disable ++ " (" ++ expr ++ ");"
      let raw_kind := lowerStr (strip (ogetStr o "property_kind" "assert"))
      let kind : PropKind :=
        if raw_kind = "assume" then .assume
        else if raw_kind = "cover" then .cover
        else .assert
      [mk_property (ogetStr o "id" "lib_inline") (ogetStr o "name" "lib_inline") body kind
        none (ogetOptStr o "note")]

/-- `formalchip/synthesis.py` `_canonical_10_candidates`: the ten canonical
pilot properties, each with its own missing-signal placeholder. -/
def canonical_10_candidates (pattern : LibraryPattern) (inputs : SynthesisInputs) : List PropertyCandidate :=
  let o := pattern.options
  let req := resolve_signal_name inputs (ogetStr o "req" "req")
  let ack := resolve_signal_name inputs (ogetStr o "ack" "ack")
  let push := resolve_signal_name inputs (ogetStr o "push" "push")
  let pop := resolve_signal_name inputs (ogetStr o "pop" "pop")
  let full := resolve_signal_name inputs (ogetStr o "full" "full")
  let empty := resolve_signal_name inputs (ogetStr o "empty" "empty")
  let level := resolve_signal_name inputs (ogetStr o "level" "level")
  let level_max := ogetStr o "level_max" "4"
  let valid := resolve_signal_name inputs (ogetStr o "valid" "valid")
  let bound := natReprPy (ogetInt o "bound" 4).toNat
  let level_width := (ogetInt o "level_width" 8).toNat
  let disable := reset_disable inputs.reset inputs.reset_active_low
  let rst := reset_asserted inputs.reset inputs.reset_active_low
  let clk := clocking inputs.clock
  let specs : List (String × String × PropKind × String) :=
    [("c10_01_req_ack_within_bound",
      "@(" ++ clk ++ ") " ++ disable ++ " " ++ req ++ " |-> ##[0:" ++ bound ++ "] " ++ ack ++ ";",
      .assert, "Handshake eventual ack within bound."),
     ("c10_02_ack_has_req",
      "@(" ++ clk ++ ") " ++ disable ++ " " ++ ack ++ " |-> (" ++ req ++ " || $past(" ++ req ++ "));",
      .assert, "Ack should correspond to a current or prior request."),
     ("c10_03_req_held_until_ack",
      "@(" ++ clk ++ ") " ++ disable ++ " (" ++ req ++ " && !" ++ ack ++ ") |=> " ++ req ++ ";",
      .assert, "Request remains asserted until acknowledged."),
     ("c10_04_no_spurious_push_pop",
      "@(" ++ clk ++ ") " ++ disable ++ " !(" ++ push ++ " && " ++ pop ++ " && " ++ empty ++ ");",
      .assert, "Avoid invalid simultaneous pop on empty while push/pop toggles."),
     ("c10_05_no_overflow",
      "@(" ++ clk ++ ") " ++ disable ++ " !(" ++ full ++ " && " ++ push ++ ");",
      .assert, "FIFO overflow safety."),
     ("c10_06_no_underflow",
      "@(" ++ clk ++ ") " ++ disable ++ " !(" ++ empty ++ " && " ++ pop ++ ");",
      .assert, "FIFO underflow safety."),
     ("c10_07_level_flag_empty",
      "@(" ++ clk ++ ") " ++ disable ++ " (" ++ empty ++ ") |-> (" ++ level ++ " == " ++
        natReprPy level_width ++ "'d0);",
      .assert, "Empty flag implies level == 0."),
     ("c10_08_level_flag_full",
      "@(" ++ clk ++ ") " ++ disable ++ " (" ++ full ++ ") |-> (" ++ level ++ " == " ++
        const_sv level_max level_width ++ ");",
      .assert, "Full flag implies level == max."),
     ("c10_09_reset_valid_low",
      "@(" ++ clk ++ ") " ++ rst ++ " |=> (" ++ valid ++ " == 1'b0);",
      .assert, "Reset safety on output valid."),
     ("c10_10_cover_req_ack_cycle",
      "@(" ++ clk ++ ") " ++ disable ++ " " ++ req ++ " ##[1:" ++ bound ++ "] " ++ ack ++ ";",
      .cover, "Coverage: observe request-to-ack scenario.")]
  specs.map (fun spec =>
    let (name, body, kind, note) := spec
    let aliased_body := apply_aliases inputs body
    let required := extract_identifiers aliased_body
    let missing := missing_signals (required_signals (sorted_set required) inputs) inputs.known_signals
    if !missing.isEmpty then
      mk_assert name (name ++ "_placeholder")
        (placeholder_body inputs.clock inputs.reset inputs.reset_active_low)
        none (some ("canonical_10 missing signals: " ++ joinSep ", " missing))
    else mk_property name name aliased_body kind none (some note))

/-- `formalchip/synthesis.py` `_library_candidates`. -/
def library_candidates (pattern : LibraryPattern) (inputs : SynthesisInputs) : List PropertyCandidate :=
  let disable := reset_disable inputs.reset inputs.reset_active_low
  let kind := lowerStr pattern.kind
  let o := pattern.options
  if kind = "handshake" then
    let req := resolve_signal_name inputs (ogetStr o "req" "req")
    let ack := resolve_signal_name inputs (ogetStr o "ack" "ack")
    let bound := (ogetInt o "bound" 8).toNat
    let missing := missing_signals (required_signals [req, ack] inputs) inputs.known_signals
    if !missing.isEmpty then
      [mk_assert ("lib_hs_" ++ req ++ "_" ++ ack) ("lib_hs_" ++ req ++ "_" ++ ack ++ "_placeholder")
        (placeholder_body inputs.clock inputs.reset inputs.reset_active_low)
        none (some ("Handshake mapping missing signals: " ++ joinSep ", " missing))]
    else
      [mk_assert ("lib_hs_" ++ req ++ "_" ++ ack) ("lib_hs_" ++ req ++ "_" ++ ack ++ "_eventual")
        ("@(" ++ clocking inputs.clock ++ ") " ++ disable ++ " " ++ req ++ " |-> ##[0:" ++
          natReprPy bound ++ "] " ++ ack ++ ";")
        none (some "Reusable handshake liveness/safety intent")]
  else if kind = "fifo_safety" then
    let full := resolve_signal_name inputs (ogetStr o "full" "fifo_full")
    let empty := resolve_signal_name inputs (ogetStr o "empty" "fifo_empty")
    let push := resolve_signal_name inputs (ogetStr o "push" "fifo_push")
    let pop := resolve_signal_name inputs (ogetStr o "pop" "fifo_pop")
    let missing := missing_signals (required_signals [full, empty, push, pop] inputs) inputs.known_signals
    if !missing.isEmpty then
      [mk_assert "lib_fifo_safety" "lib_fifo_safety_placeholder"
        (placeholder_body inputs.clock inputs.reset inputs.reset_active_low)
        none (some ("FIFO mapping missing signals: " ++ joinSep ", " missing))]
    else
      [mk_assert "lib_fifo_overflow" "lib_fifo_no_overflow"
        ("@(" ++ clocking inputs.clock ++ ") " ++ disable ++ " !(" ++ full ++ " && " ++ push ++ ");")
        none (some "Prevent push when FIFO is full"),
       mk_assert "lib_fifo_underflow" "lib_fifo_no_underflow"
        ("@(" ++ clocking inputs.clock ++ ") " ++ disable ++ " !(" ++ empty ++ " && " ++ pop ++ ");")
        none (some "Prevent pop when FIFO is empty")]
  else if kind = "reset_sequence" then
    let signal := resolve_signal_name inputs (ogetStr o "signal" "valid")
    let value := ogetStr o "value" "0"
    let latency := natReprPy (ogetInt o "latency" 1).toNat
    let missing := missing_signals (required_signals [signal] inputs) inputs.known_signals
    if !missing.isEmpty then
      [mk_assert ("lib_rst_" ++ signal) ("lib_reset_seq_" ++ signal ++ "_placeholder")
        (placeholder_body inputs.clock inputs.reset inputs.reset_active_low)
        none (some ("Reset-sequence signal missing: " ++ joinSep ", " missing))]
    else
      [mk_assert ("lib_rst_" ++ signal) ("lib_reset_seq_" ++ signal)
        ("@(" ++ clocking inputs.clock ++ ") " ++ reset_asserted inputs.reset inputs.reset_active_low ++
          " |=> ##[" ++ latency ++ ":" ++ latency ++ "] (" ++ signal ++ " == " ++ value ++ ");")
        none (some "Reset sequencing rule")]
  else if kind = "inline" then inline_library_candidate pattern inputs
  else if kind = "canonical_10" then canonical_10_candidates pattern inputs
  else []

/-- Name-collision loop of `synthesize_candidates`: try `base`, then
`base_2`, `base_3`, … (fuel is generous; the loop always terminates in
Python because the numbered names are fresh eventually). -/
def fresh_name_aux (seen : List String) (base : String) : Nat → Nat → String
  | 0, _ => base
  | f + 1, i =>
    let cand := base ++ "_" ++ natReprPy i
    if seen.contains cand then fresh_name_aux seen base f (i + 1) else cand

/-- First available name for a candidate given the names already taken. -/
def fresh_name (seen : List String) (base : String) : String :=
  if seen.contains base then fresh_name_aux seen base (seen.length + 2) 2 else base

/-- Collision-resolving collection loop shared by the clause and library
passes of `synthesize_candidates`. -/
def uniquify_names (seen : List String) : List PropertyCandidate → List PropertyCandidate
  | [] => []
  | prop :: rest =>
    let name := fresh_name seen prop.name
    { prop with name := name } :: uniquify_names (name :: seen) rest

/-- Clause dispatch of `synthesize_candidates`. -/
def clause_to_candidates (clause : SpecClause) (inputs : SynthesisInputs) : List PropertyCandidate :=
  if clause.tags.contains "register" || clause.tags.contains "ipxact" then
    register_clause_to_candidates clause inputs
  else if clause.tags.contains "rule_table" then
    rule_table_clause_to_candidates clause inputs
  else text_clause_to_candidates clause inputs

/-- `formalchip/synthesis.py` `synthesize_candidates`: clause candidates in
clause order, then library candidates, with `_2`, `_3`, … name dedup. -/
def synthesize_candidates (clauses : List SpecClause) (libraries : List LibraryPattern)
    (inputs : SynthesisInputs) : List PropertyCandidate :=
  uniquify_names []
    ((clauses.map (fun c => clause_to_candidates c inputs)).flatten ++
     (libraries.map (fun lib => library_candidates lib inputs)).flatten)

/-- `formalchip/synthesis.py` `is_placeholder_candidate`. -/
def is_placeholder_candidate (c : PropertyCandidate) : Bool :=
  containsSub (lowerStr (c.notes.getD "")) "placeholder" || containsSub c.body "1'b1 |-> 1'b1"

/-- `formalchip/synthesis.py` `optimize_candidates`, main loop: `seen` holds
the `(kind, stripped body)` signatures already kept or skipped. -/
def optimize_go (max_placeholders : Nat) :
    List (PropKind × String) → Nat → List PropertyCandidate → List PropertyCandidate
  | _, _, [] => []
  | seen, placeholder_count, c :: rest =>
    let sig := (c.kind, strip c.body)
    if seen.contains sig then optimize_go max_placeholders seen placeholder_count rest
    else
      if is_placeholder_candidate c then
        if placeholder_count ≥ max_placeholders then
          optimize_go max_placeholders (sig :: seen) placeholder_count rest
        else c :: optimize_go max_placeholders (sig :: seen) (placeholder_count + 1) rest
      else c :: optimize_go max_placeholders (sig :: seen) placeholder_count rest

/-- `formalchip/synthesis.py` `optimize_candidates`: drop duplicate
`(kind, body)` pairs and cap placeholders at `max_placeholders`. -/
def optimize_candidates (candidates : List PropertyCandidate) (max_placeholders : Nat := 3) :
    List PropertyCandidate :=
  optimize_go max_placeholders [] 0 candidates

/-- Regex `##\[0:(\d+)\]` of `_repair_body` at one position. -/
def window_at (l : List Char) : Option Nat := do
  let l ← matchLit "##[0:" l
  let (n, l) ← matchDigits l
  let _ ← matchLit "]" l
  pure n

/-- `formalchip/llm.py` `_repair_body`: bump the first `##[0:N]` window to
`##[0:N+2]` (Python `str.replace` rewrites every occurrence of that window
text), else relax every `|=>` into `|-> ##[0:1]`. -/
def repair_body (body : String) : String :=
  match regexSearch window_at body with
  | some old =>
    replaceAllStr body ("##[0:" ++ natReprPy old ++ "]") ("##[0:" ++ natReprPy (old + 2) ++ "]")
  | none =>
    if containsSub body "|=>" then replaceAllStr body "|=>" "|-> ##[0:1]" else body

/-- Rewrite heuristic exactly as claim C9 words it: replace only the FIRST
`##[0:N]` window with `##[0:N+2]`. -/
def repair_body_claimC9 (body : String) : String :=
  match regexSearch window_at body with
  | some old =>
    replaceFirstStr body ("##[0:" ++ natReprPy old ++ "]") ("##[0:" ++ natReprPy (old + 2) ++ "]")
  | none =>
    if containsSub body "|=>" then replaceAllStr body "|=>" "|-> ##[0:1]" else body

/-- Notes annotation of a repaired candidate (`DeterministicLLM.repair`). -/
def repaired_notes (notes : Option String) (summary : String) : String :=
  (match notes with
   | some n => n ++ " | "
   | none => "") ++ "Auto-repaired after feedback: " ++ summary

/-- The synthetic reset-stability assumption `DeterministicLLM.repair`
appends when the feedback set is non-empty (`out_len = len(out)` at the
moment of the append, which is the length of `current`). -/
def repair_assume_candidate (inputs : SynthesisInputs) (out_len : Nat) : PropertyCandidate :=
  { prop_id := "repair_assume_" ++ natReprPy (out_len + 1),
    name := "repair_assume_reset_stable_" ++ natReprPy (out_len + 1),
    body := "@(posedge " ++ inputs.clock ++ ") $changed(" ++ inputs.reset ++ ") |-> ##1 $stable(" ++
      inputs.reset ++ ");",
    kind := .assume,
    source_clause := none,
    notes := some "Constrains pathological reset oscillation seen in CEX" }

/-- `formalchip/llm.py` `DeterministicLLM.repair`: re-propose when `current`
is empty; otherwise rewrite exactly the candidates named in
`feedback.failed_properties` and append the reset assumption when that set
is non-empty. -/
def deterministic_repair (current : List PropertyCandidate) (feedback : IterationFeedback)
    (clauses : List SpecClause) (libraries : List LibraryPattern)
    (inputs : SynthesisInputs) : List PropertyCandidate :=
  if current.isEmpty then synthesize_candidates clauses libraries inputs
  else
    let failed := feedback.failed_properties
    let out := current.map (fun prop =>
      if failed.contains prop.name then
        { prop with body := repair_body prop.body,
                    notes := some (repaired_notes prop.notes feedback.summary) }
      else prop)
    if !failed.isEmpty then out ++ [repair_assume_candidate inputs out.length] else out

/-- `formalchip/engines/mock.py` `MockEngine`: `pass_after` is clamped to at
least 1 by `__init__`. -/
structure MockEngine where
  pass_after : Int
deriving DecidableEq

/-- `MockEngine.__init__`: `self.pass_after = max(1, pass_after)`. -/
def mkMockEngine (pass_after : Int) : MockEngine :=
  { pass_after := max 1 pass_after }

/-- `MockEngine.run`, log contents: a synthetic failure while
`iteration < pass_after`, a pass afterwards. -/
def mock_log_lines (e : MockEngine) (iteration : Int) (candidates : List PropertyCandidate) :
    List String :=
  let names := (candidates.take 3).map (fun c => c.name)
  if iteration < e.pass_after then
    ["STATUS: FAILED",
     "assertion " ++ names.headD "p0" ++ " failed",
     "counterexample: req=1 ack=0 for 4 cycles"]
  else ["STATUS: PASSED", "all properties proven"]

/-- The text `MockEngine.run` writes to `mock.log`. -/
def mock_log_text (e : MockEngine) (iteration : Int) (candidates : List PropertyCandidate) : String :=
  joinSep "\n" (mock_log_lines e iteration candidates) ++ "\n"

/-- Status the log parser derives from the mock log (`parse_generic_log`
composed with `MockEngine.run`'s log). -/
def mock_status (e : MockEngine) (iteration : Int) (candidates : List PropertyCandidate) : String :=
  detect_status (mock_log_text e iteration candidates)

/-- One file entry of the evidence manifest (`formalchip/evidence.py`). -/
structure ManifestEntry where
  path : String
  sha256 : String
  size : Nat
deriving DecidableEq

/-- The evidence manifest (`formalchip/evidence.py` `_build_manifest`); the
`generated_at`, `tool_versions`, `runtime` and `gate_verdict` metadata play
no part in the claims and are omitted. -/
structure EvidenceManifest where
  run_dir : String
  config_path : String
  config_sha256 : Option String
  files : List ManifestEntry
deriving DecidableEq

/-- The run directory as a finite map from run-dir-relative path to file
content, in the (sorted) order `Path.rglob` walks it. -/
abbrev FileSystem := List (String × String)

/-- Paths present in the run directory. -/
def fsPaths (fs : FileSystem) : List String :=
  fs.map (fun p => p.1)

/-- Write a file: overwrite in place, or append a fresh entry. -/
def setFile (fs : FileSystem) (p c : String) : FileSystem :=
  if (fsPaths fs).contains p then fs.map (fun q => if q.1 = p then (p, c) else q)
  else fs ++ [(p, c)]

/-- Run-dir-relative path of the manifest. -/
def manifest_rel_path : String := "evidence/manifest.json"

/-- Run-dir-relative path of the evidence tarball. -/
def evidence_tar_path (run_id : String) : String :=
  "evidence/formalchip-evidence-" ++ run_id ++ ".tar.gz"

/-- `formalchip/evidence.py` `_build_manifest`: every file currently under
the run directory, with its SHA-256 and size.  The hash function is the
`hashlib.sha256` library call, abstracted as the parameter `hash`. -/
def build_manifest (hash : String → String) (run_dir config_path : String)
    (config_sha256 : Option String) (fs : FileSystem) : EvidenceManifest :=
  { run_dir := run_dir, config_path := config_path, config_sha256 := config_sha256,
    files := fs.map (fun pc => { path := pc.1, sha256 := hash pc.2, size := pc.2.length }) }

/-- `formalchip/evidence.py` `build_evidence_pack`: build the manifest from
the current run directory, write it to `evidence/manifest.json`, then write
the gzip tarball of every file except the tarball itself.  `render` stands
for `json.dumps` of the manifest and `tar` for the tarball bytes; both are
library calls the embedding abstracts.  Returns the manifest and the run
directory after the call. -/
def build_evidence_pack (hash : String → String) (render : EvidenceManifest → String)
    (tar : FileSystem → String) (run_dir config_path : String) (config_sha256 : Option String)
    (run_id : String) (fs : FileSystem) : EvidenceManifest × FileSystem :=
  let manifest := build_manifest hash run_dir config_path config_sha256 fs
  let fs1 := setFile fs manifest_rel_path (render manifest)
  let out := evidence_tar_path run_id
  let fs2 := setFile fs1 out (tar (fs1.filter (fun pc => pc.1 ≠ out)))
  (manifest, fs2)

/-- `formalchip/config.py` `ProjectConfig` (paths are strings). -/
structure ProjectConfig where
  name : String
  rtl_files : List String
  top_module : String
  clock : String := "clk"
  reset : String := "rst_n"
  reset_active_low : Bool := true
  signal_aliases : List (String × String) := []
deriving DecidableEq

/-- `formalchip/config.py` `LLMConfig` (the `model` field is unused by the
fragment the claims exercise). -/
structure LLMConfig where
  backend : String := "deterministic"
  command : Option String := none
deriving DecidableEq

/-- `formalchip/config.py` `EngineConfig` (`sby_file` and `timeout_s` play no
part in the claims). -/
structure EngineConfig where
  kind : String := "mock"
  command : Option String := none
  pass_after : Int := 1
deriving DecidableEq

/-- `formalchip/config.py` `ConstraintItem`; `when_` models the `when`
attribute. -/
structure ConstraintItem where
  name : String
  expr : String
  kind : String
  when_ : Option String := none
  note : Option String := none
deriving DecidableEq

/-- `formalchip/config.py` `ConstraintsConfig`. -/
structure ConstraintsConfig where
  assumptions : List ConstraintItem := []
  covers : List ConstraintItem := []
deriving DecidableEq

/-- `formalchip/config.py` `SpecInput`: note that the source's
`load_spec_clauses` never reads `options`. -/
structure SpecInput where
  kind : String
  path : String
  options : List (String × OptVal) := []
deriving DecidableEq

/-- `formalchip/config.py` `FormalChipConfig` (loop and kpi sections are not
needed by the claims). -/
structure FormalChipConfig where
  project : ProjectConfig
  llm : LLMConfig := {}
  engine : EngineConfig := {}
  constraints : ConstraintsConfig := {}
  specs : List SpecInput := []
  libraries : List LibraryPattern := []
deriving DecidableEq

/-- `formalchip/spec_ingest.py` `load_spec_clauses`: concatenation of the
per-input parses, in input order.  The source looks each `spec.kind` up in
`SUPPORTED_SPEC_KINDS` and calls `fn(spec.path)` — dropping `spec.options`,
so `register_csv` inputs are parsed with all-default options.  `fs` maps a
path to its file content (`none` = missing file, an `IOError` in Python).
The `ipxact` and `rule_table_csv` ingestors are outside the fragment the
claims exercise and are not modelled. -/
def load_spec_clauses (fs : String → Option String) : List SpecInput → Except String (List SpecClause)
  | [] => Except.ok []
  | spec :: rest =>
    let parsed : Except String (List SpecClause) :=
      if spec.kind = "text" then
        match fs spec.path with
        | some content => Except.ok (parse_text_spec spec.path content)
        | none => Except.error ("No such file: " ++ spec.path)
      else if spec.kind = "register_csv" then
        match fs spec.path with
        | some content => Except.ok (parse_register_csv spec.path {} content)
        | none => Except.error ("No such file: " ++ spec.path)
      else Except.error ("Unsupported spec kind: " ++ spec.kind)
    match parsed with
    | Except.error e => Except.error e
    | Except.ok clauses =>
      match load_spec_clauses fs rest with
      | Except.error e => Except.error e
      | Except.ok more => Except.ok (clauses ++ more)

/-- `formalchip/pipeline.py` `InitialSynthesis`. -/
structure InitialSynthesis where
  clauses : List SpecClause
  libraries : List LibraryPattern
  candidates : List PropertyCandidate
  inputs : SynthesisInputs
deriving DecidableEq

/-- `formalchip/pipeline.py` `_libraries_with_constraints`: structured
constraints become synthetic `inline` libraries. -/
def libraries_with_constraints (config : FormalChipConfig) : List LibraryPattern :=
  config.libraries ++
    config.constraints.assumptions.map (fun item =>
      { kind := "inline",
        options := [("name", .s item.name), ("expr", .s item.expr),
                    ("when", .s (item.when_.getD "")), ("property_kind", .s "assume"),
                    ("note", .s (item.note.getD "Structured environment assumption"))] }) ++
    config.constraints.covers.map (fun item =>
      { kind := "inline",
        options := [("name", .s item.name), ("expr", .s item.expr),
                    ("when", .s (item.when_.getD "")), ("property_kind", .s "cover"),
                    ("note", .s (item.note.getD "Structured coverage objective"))] })

/-- `formalchip/pipeline.py` `build_initial_synthesis` in deterministic mode
(the deterministic LLM's `propose` delegates verbatim to
`synthesize_candidates`, so `force_deterministic` makes no difference).
`scan` abstracts the regex signal scan of `formalchip/rtl.py`
`collect_signals` over one file's content; the pipeline then unions in the
configured clock and reset.  The signal catalogue is a Python set used only
through membership; the list here stands for it. -/
def build_initial_synthesis (scan : String → List String) (fs : String → Option String)
    (config : FormalChipConfig) : Except String InitialSynthesis :=
  match load_spec_clauses fs config.specs with
  | Except.error e => Except.error e
  | Except.ok clauses =>
    let libraries := libraries_with_constraints config
    let known := ((config.project.rtl_files.filterMap fs).map scan).flatten ++
      [config.project.clock, config.project.reset]
    let inputs : SynthesisInputs :=
      { clock := config.project.clock, reset := config.project.reset,
        reset_active_low := config.project.reset_active_low,
        known_signals := known, signal_aliases := config.project.signal_aliases }
    let candidates := optimize_candidates (synthesize_candidates clauses libraries inputs)
    Except.ok { clauses := clauses, libraries := libraries, candidates := candidates, inputs := inputs }

/-- Regex `\bmodule\s+top\b` of `run_doctor` at one position (the position's
left word-boundary is checked by the caller). -/
def module_decl_at (top : String) (l : List Char) : Bool :=
  match matchLit "module" l with
  | none => false
  | some l1 =>
    match matchWs l1 with
    | none => false
    | some l2 =>
      match matchLit top l2 with
      | none => false
      | some l3 =>
        match l3 with
        | [] => true
        | c :: _ => !isIdentChar c

/-- Scan for `\bmodule\s+top\b` with the left boundary tracked through the
previous character. -/
def module_search_aux (top : String) : Nat → Option Char → List Char → Bool
  | 0, _, _ => false
  | f + 1, prev, l =>
    let boundary := match prev with
      | none => true
      | some c => !isIdentChar c
    (boundary && module_decl_at top l) ||
      (match l with
       | [] => false
       | c :: rest => module_search_aux top f (some c) rest)

/-- `run_doctor`'s top-module scan over one RTL file's text. -/
def module_decl_search (top text : String) : Bool :=
  module_search_aux top (text.data.length + 1) none text.data

/-- Python `str.split()` (whitespace runs, no empties). -/
def splitWsAux : Nat → List Char → List String
  | 0, _ => []
  | _, [] => []
  | f + 1, c :: rest =>
    if pyIsSpace c then splitWsAux f rest
    else (⟨c :: rest.takeWhile (fun d => !pyIsSpace d)⟩ : String) ::
      splitWsAux f (rest.dropWhile (fun d => !pyIsSpace d))

/-- Python `s.split()`. -/
def splitWsPy (s : String) : List String :=
  splitWsAux s.data.length s.data

/-- `formalchip/doctor.py` `DoctorReport`. -/
structure DoctorReport where
  errors : List String := []
  warnings : List String := []
  infos : List String := []
  candidate_count : Nat := 0
  placeholder_count : Nat := 0
deriving DecidableEq

/-- `DoctorReport.ok`: no errors. -/
def DoctorReport.ok (r : DoctorReport) : Bool :=
  r.errors.isEmpty

/-- `formalchip/doctor.py` `run_doctor`.  `fs` is the filesystem (`none` =
missing file), `pathHas` abstracts `shutil.which`, `scan` the RTL signal
scan.  Error and warning entries are accumulated in the source's order; the
placeholder-ratio float test `ratio >= 0.3` is the rational test
`10*p ≥ 3*c`. -/
def run_doctor (fs : String → Option String) (pathHas : String → Bool)
    (scan : String → List String) (config : FormalChipConfig) : DoctorReport :=
  let errors0 : List String :=
    if config.project.rtl_files.isEmpty then ["[project].rtl_files is empty"] else []
  let missing_rtl := config.project.rtl_files.filter (fun p => (fs p).isNone)
  let errors1 := errors0 ++
    (if !missing_rtl.isEmpty then ["Missing RTL files: " ++ joinSep ", " missing_rtl] else [])
  let missing_specs := (config.specs.map (fun s => s.path)).filter (fun p => (fs p).isNone)
  let errors2 := errors1 ++
    (if !missing_specs.isEmpty then ["Missing spec files: " ++ joinSep ", " missing_specs] else [])
  let top_warn : List String :=
    if missing_rtl.isEmpty then
      let top_ok := config.project.rtl_files.any (fun p =>
        match fs p with
        | some txt => module_decl_search config.project.top_module txt
        | none => false)
      if !top_ok then
        ["Top module `" ++ config.project.top_module ++
          "` was not found by simple scan in provided RTL files."]
      else []
    else []
  let infos := ["engine=" ++ config.engine.kind, "llm_backend=" ++ config.llm.backend,
    "constraints_assumptions=" ++ natReprPy config.constraints.assumptions.length,
    "constraints_covers=" ++ natReprPy config.constraints.covers.length]
  let kind := lowerStr (strip config.engine.kind)
  let engine_errors : List String :=
    if kind = "symbiyosys" then
      let cmd := pyOr config.engine.command "sby"
      if !pathHas cmd then ["SymbiYosys command not found in PATH: " ++ cmd] else []
    else if kind = "vcformal" || kind = "jasper" || kind = "questa" then
      if !pyTruthy config.engine.command then ["engine.command is required for kind=" ++ kind] else []
    else []
  let engine_warns : List String :=
    if (kind = "vcformal" || kind = "jasper" || kind = "questa") && pyTruthy config.engine.command then
      let exe := (splitWsPy (config.engine.command.getD "")).headD ""
      if !pathHas exe then
        ["Command executable for engine `" ++ kind ++ "` not found in PATH: " ++ exe]
      else []
    else []
  let llm_errors : List String :=
    if lowerStr (strip config.llm.backend) = "command" && !pyTruthy config.llm.command then
      ["llm.command is required when llm.backend=command"]
    else []
  let unknown_libs := sorted_set
    ((config.libraries.filter (fun lib => !SUPPORTED_LIBRARY_KINDS.contains (lowerStr lib.kind))).map
      (fun lib => lib.kind))
  let lib_warns : List String :=
    if !unknown_libs.isEmpty then
      ["Unknown library kinds (ignored by synthesis): " ++ joinSep ", " unknown_libs]
    else []
  let errors := errors2 ++ engine_errors ++ llm_errors
  let warnings := top_warn ++ engine_warns ++ lib_warns
  if !errors.isEmpty then
    { errors := errors, warnings := warnings, infos := infos }
  else
    match build_initial_synthesis scan fs config with
    | Except.error e =>
      { errors := errors ++ ["Synthesis preflight failed: " ++ e], warnings := warnings, infos := infos }
    | Except.ok init =>
      let candidate_count := init.candidates.length
      let placeholder_count := (init.candidates.filter is_placeholder_candidate).length
      let infos2 := infos ++ ["loaded_clauses=" ++ natReprPy init.clauses.length,
        "known_signals=" ++ natReprPy init.inputs.known_signals.length,
        "generated_candidates=" ++ natReprPy candidate_count]
      let clock_warn : List String :=
        if !init.inputs.known_signals.contains config.project.clock then
          ["Clock `" ++ config.project.clock ++ "` not found in RTL signal scan"]
        else []
      let reset_warn : List String :=
        if !init.inputs.known_signals.contains config.project.reset then
          ["Reset `" ++ config.project.reset ++ "` not found in RTL signal scan"]
        else []
      let ph_warn : List String :=
        if placeholder_count > 0 then
          ["Generated " ++ natReprPy placeholder_count ++ "/" ++ natReprPy candidate_count ++
            " placeholder properties."]
        else []
      let ratio_warn : List String :=
        if candidate_count > 0 && 10 * placeholder_count ≥ 3 * candidate_count then
          ["Placeholder ratio is high; add signal aliases, structured constraints, or inline properties."]
        else []
      let cand_err : List String :=
        if candidate_count = 0 then ["No properties were generated from specs/libraries."] else []
      { errors := errors ++ cand_err,
        warnings := warnings ++ clock_warn ++ reset_warn ++ ph_warn ++ ratio_warn,
        infos := infos2,
        candidate_count := candidate_count, placeholder_count := placeholder_count }

/-- Fields of the `FormalResult` dataclass, `formalchip/models.py`. -/
def formal_result_fields : List String :=
  ["status", "summary", "log_path", "failed_properties", "counterexamples", "unsat_cores", "metadata"]

/-- Keyword arguments `parse_generic_log` and `parse_symbiyosys_log`
(`formalchip/parsers.py`) pass to the `FormalResult` constructor. -/
def parse_generic_log_kwargs : List String :=
  ["status", "summary", "log_path", "failed_properties", "counterexamples", "unsat_cores",
   "coverage_hits"]

/-- Fields of the `IterationRecord` dataclass, `formalchip/run_state.py`. -/
def iteration_record_fields : List String :=
  ["iteration", "property_file", "engine_log", "status", "summary", "failed_properties",
   "counterexamples", "unsat_cores"]

/-- Attributes `_state_to_dict` (`formalchip/reporting.py`) reads from each
`IterationRecord` when `write_run_report` serialises the run state. -/
def state_to_dict_iteration_attrs : List String :=
  ["iteration", "property_file", "engine_log", "started_at", "completed_at", "duration_s",
   "status", "summary", "failed_properties", "counterexamples", "unsat_cores", "coverage_hits",
   "artifact_files"]

/-- A Python dataclass call accepts exactly the declared fields; an unknown
keyword raises `TypeError`. -/
def dataclass_call_ok (fields kwargs : List String) : Bool :=
  kwargs.all fields.contains

/-- Reading an attribute a dataclass does not declare raises
`AttributeError`; the reads succeed only when every attribute is a field. -/
def attr_reads_ok (fields attrs : List String) : Bool :=
  attrs.all fields.contains

/-- Input of claim C2: the register CSV row `STATUS,0x00,32,0x0,ro` parsed
with the spec options of the claim (as the repository's own synthesis test
passes them to `parse_register_csv`). -/
def c2_clauses : List SpecClause :=
  parse_register_csv "regs.csv"
    { signal_template := "{name_lower}_q", sw_we_signal := some "sw_we",
      sw_addr_signal := some "sw_addr", sw_addr_width := 32 }
    "name,address,width,reset,access\nSTATUS,0x00,32,0x0,ro\n"

/-- Synthesis context of claim C2: active-low `rst_n`, all referenced
signals known. -/
def c2_inputs : SynthesisInputs :=
  { clock := "clk", reset := "rst_n", reset_active_low := true,
    known_signals := ["clk", "rst_n", "status_q", "sw_we", "sw_addr"] }

/-- Candidates claim C2 speaks about. -/
def c2_candidates : List PropertyCandidate :=
  synthesize_candidates c2_clauses [] c2_inputs

/-- Candidates of claim C4: the text clause with `req` and `ack` not in
`known_signals`. -/
def c4_candidates : List PropertyCandidate :=
  synthesize_candidates (parse_text_spec "spec.md" "- If req then ack next cycle.\n") []
    { clock := "clk", reset := "rst_n", reset_active_low := true,
      known_signals := ["clk", "rst_n"] }

/-- Filesystem of claim C5's counterexample: two distinct one-clause text
spec files. -/
def c5_fs : String → Option String := fun p =>
  if p = "a.md" then some "- Never grant and deny.\n"
  else if p = "b.md" then some "- If req then ack next cycle.\n"
  else none

/-- The two text spec inputs of claim C5's counterexample. -/
def c5_specs : List SpecInput :=
  [{ kind := "text", path := "a.md" }, { kind := "text", path := "b.md" }]

/-- Clause ids `load_spec_clauses` produces (empty on a load error). -/
def load_ids (fs : String → Option String) (specs : List SpecInput) : List String :=
  match load_spec_clauses fs specs with
  | .ok clauses => clauses.map (fun c => c.clause_id)
  | .error _ => []

/-- Configuration of claim C6: mock engine, deterministic backend, one RTL
file and one text spec. -/
def c6_config (top : String) : FormalChipConfig :=
  { project := { name := "unit", rtl_files := ["top.sv"], top_module := top },
    specs := [{ kind := "text", path := "spec.md" }] }

/-- Filesystem of claim C6: the RTL file and the spec file both exist. -/
def c6_fs (rtl spec : String) : String → Option String := fun p =>
  if p = "top.sv" then some rtl else if p = "spec.md" then some spec else none

/-- Run directory of claim C7's counterexample: a fresh run holding one
file. -/
def c7_fs0 : FileSystem := [("state.json", "S")]

/-- Result of `build_evidence_pack` on that run directory, with concrete
stand-ins for the hashing, JSON and tar library calls. -/
def c7_result : EvidenceManifest × FileSystem :=
  build_evidence_pack (fun s => "h(" ++ s ++ ")") (fun _ => "MANIFEST") (fun _ => "TAR")
    "/runs/r1" "formalchip.toml" none "r1" c7_fs0

/-- Candidate of claim C9's counterexample: a failed property whose body
holds the same `##[0:1]` window twice. -/
def c9_current : List PropertyCandidate :=
  [{ prop_id := "p1", name := "p1", body := "req |-> ##[0:1] a ##[0:1] b;" }]

/-- Feedback of claim C9's counterexample: the one property failed. -/
def c9_feedback : IterationFeedback :=
  { status := "fail", summary := "status=fail, failed=1", failed_properties := ["p1"] }

/-- Synthesis context of claim C9's counterexample. -/
def c9_inputs : SynthesisInputs :=
  { clock := "clk", reset := "rst_n", reset_active_low := true }

/-- Current candidates of the C9 witness. -/
def c9w_current : List PropertyCandidate :=
  [{ prop_id := "q1", name := "q1", body := "a |=> b;" },
   { prop_id := "q2", name := "q2", body := "c |-> d;" }]

/-- Feedback of the C9 witness: only `q1` failed. -/
def c9w_feedback : IterationFeedback :=
  { status := "fail", summary := "status=fail", failed_properties := ["q1"] }

/-- C3, counterexample: a log text containing the code's fourth error token
`"\nerror:"` but none of the claim's three error tokens is classified
`error` by `_detect_status`, while the claim's cascade (whose `error` tier
is exactly the three listed tokens, `counterexample` deciding `fail` next)
returns `fail` — so the claim's if-and-only-if for `error` is false on the
code. -/
theorem C3_claim_counterexample :
    detect_status "counterexample trace\nerror: solver crashed" = "error" ∧
    detect_status_claimC3 "counterexample trace\nerror: solver crashed" = "fail" ∧
    detect_status_claimC3 "counterexample trace\nerror: solver crashed" ≠
      detect_status "counterexample trace\nerror: solver crashed" := by
  refine ⟨by decide, by decide, by decide⟩

/-- C3, amended: with `"\nerror:"` added as a fourth token of the `error`
tier, the claimed precedence cascade (then the lone-token fallback and the
`unknown` default) agrees with `_detect_status` on every log text. -/
theorem C3_status_cascade_amended (text : String) :
    detect_status text = detect_status_claimC3_amended text := rfl

/-- C1: `run_formalchip` cannot complete the claimed mock run, because the
`FormalResult` dataclass of `formalchip/models.py` does not declare the
`coverage_hits` keyword that `parse_generic_log` passes (a `TypeError` at
the first engine run), and `IterationRecord` of `formalchip/run_state.py`
does not carry the `started_at`/`completed_at`/`duration_s`/
`coverage_hits`/`artifact_files` attributes that `write_run_report`'s
`_state_to_dict` reads (an `AttributeError` once an iteration exists). -/
theorem C1_run_crashes_on_field_mismatch :
    dataclass_call_ok formal_result_fields parse_generic_log_kwargs = false ∧
    attr_reads_ok iteration_record_fields state_to_dict_iteration_attrs = false := by
  refine ⟨by decide, by decide⟩

/-- C2, counterexample: the pipeline emits two candidates for the claimed
CSV row, but neither body contains the claimed zero-padded `_ro`
consequence `(sw_we && (sw_addr == 32'h00000000)) |-> $stable(status_q);` —
`_const_sv` renders the address `0x00` as `32'h00` without padding. -/
theorem C2_claim_counterexample :
    c2_candidates.length = 2 ∧
    c2_candidates.all
        (fun c => !(containsSub c.body "(sw_we && (sw_addr == 32'h00000000)) |-> $stable(status_q);")) =
      true := by
  refine ⟨by decide, by decide⟩

/-- C2, amended: the row yields exactly the `_reset` and `_ro` assertions,
both non-placeholder, whose bodies contain
`!rst_n |=> status_q == 32'h0;` and
`(sw_we && (sw_addr == 32'h00)) |-> $stable(status_q);` respectively. -/
theorem C2_register_csv_candidates :
    (c2_candidates.map (fun c => c.name)) =
      ["reg_001_reset_status_q_reset", "reg_001_ro_status_q_ro"] ∧
    (c2_candidates.map (fun c => c.kind)) = [.assert, .assert] ∧
    c2_candidates.all (fun c => !is_placeholder_candidate c) = true ∧
    (c2_candidates.map (fun c => containsSub c.body "!rst_n |=> status_q == 32'h0;")) =
      [true, false] ∧
    (c2_candidates.map
        (fun c => containsSub c.body "(sw_we && (sw_addr == 32'h00)) |-> $stable(status_q);")) =
      [false, true] := by
  refine ⟨by decide, by decide, by decide, by decide, by decide⟩

/-- C4, counterexample: the placeholder candidate's notes are
`Signals not found in RTL: req, ack`, which does not contain the claimed
substring `missing signals: req, ack`. -/
theorem C4_claim_counterexample :
    (c4_candidates.map (fun c => c.notes)) = [some "Signals not found in RTL: req, ack"] ∧
    c4_candidates.all (fun c => !(containsSub (c.notes.getD "") "missing signals: req, ack")) =
      true := by
  refine ⟨by decide, by decide⟩

/-- C4, amended: with `req` and `ack` unknown the clause yields exactly one
placeholder candidate with the trivial body `1'b1 |-> 1'b1;` and the note
`Signals not found in RTL: req, ack`. -/
theorem C4_missing_signal_placeholder :
    c4_candidates =
      [{ prop_id := "text_001", name := "text_001_placeholder",
         body := "@(posedge clk) disable iff(!rst_n) 1'b1 |-> 1'b1;",
         kind := .assert, source_clause := some "text_001",
         notes := some "Signals not found in RTL: req, ack" }] ∧
    c4_candidates.all is_placeholder_candidate = true ∧
    c4_candidates.all (fun c => containsSub c.body "1'b1 |-> 1'b1;") = true ∧
    c4_candidates.all (fun c => containsSub (c.notes.getD "") "Signals not found in RTL: req, ack") =
      true := by
  refine ⟨by decide, by decide, by decide, by decide⟩

/-- C5, counterexample: two distinct one-clause text spec inputs both yield
`text_001`, so the clause ids `load_spec_clauses` returns for this run are
not pairwise distinct. -/
theorem C5_claim_counterexample :
    load_ids c5_fs c5_specs = ["text_001", "text_001"] ∧
    ¬ (load_ids c5_fs c5_specs).Nodup := by
  refine ⟨by decide, by decide⟩

/-- C7, counterexample: on a fresh run directory, `evidence/manifest.json`
is present in the run directory once `build_evidence_pack` returns, is not
the tarball, and yet is not listed in the manifest — the manifest is built
before the manifest file is written. -/
theorem C7_claim_counterexample :
    manifest_rel_path ∈ fsPaths c7_result.2 ∧
    manifest_rel_path ∉ c7_result.1.files.map ManifestEntry.path ∧
    manifest_rel_path ≠ evidence_tar_path "r1" ∧
    (c7_result.1.files.map ManifestEntry.path) = ["state.json"] := by
  refine ⟨by decide, by decide, by decide, by decide⟩

/-- C6, counterexample: a config whose single existing RTL file does not
declare the top module `top` still gets `DoctorReport.errors = []` (so
`ok = true`) — the absence is reported as a warning, refuting the claim
that it is a fatal error. -/
theorem C6_claim_counterexample :
    module_decl_search "top" "module other(input logic clk);\nendmodule\n" = false ∧
    (run_doctor (c6_fs "module other(input logic clk);\nendmodule\n" "- If req then ack next cycle.\n")
        (fun _ => false) (fun _ => ["clk", "rst_n", "req", "ack"]) (c6_config "top")).errors = [] ∧
    (run_doctor (c6_fs "module other(input logic clk);\nendmodule\n" "- If req then ack next cycle.\n")
        (fun _ => false) (fun _ => ["clk", "rst_n", "req", "ack"]) (c6_config "top")).ok = true ∧
    ("Top module `top` was not found by simple scan in provided RTL files.") ∈
      (run_doctor (c6_fs "module other(input logic clk);\nendmodule\n" "- If req then ack next cycle.\n")
        (fun _ => false) (fun _ => ["clk", "rst_n", "req", "ack"]) (c6_config "top")).warnings := by
  refine ⟨by decide, by decide, by decide, by decide⟩

/-- C9, counterexample: with the failed body `req |-> ##[0:1] a ##[0:1] b;`
the code bumps BOTH occurrences of the first-matched window (Python
`str.replace` rewrites every occurrence), while the claim's
first-window-only rewrite leaves the second `##[0:1]` alone — the two
disagree, and the repaired candidate list shows the code's form. -/
theorem C9_claim_counterexample :
    ((deterministic_repair c9_current c9_feedback [] [] c9_inputs).map (fun c => c.body)) =
      ["req |-> ##[0:3] a ##[0:3] b;",
       "@(posedge clk) $changed(rst_n) |-> ##1 $stable(rst_n);"] ∧
    repair_body_claimC9 "req |-> ##[0:1] a ##[0:1] b;" = "req |-> ##[0:3] a ##[0:1] b;" ∧
    repair_body "req |-> ##[0:1] a ##[0:1] b;" ≠
      repair_body_claimC9 "req |-> ##[0:1] a ##[0:1] b;" := by
  refine ⟨by decide, by decide, by decide⟩

/-- C10: the mock engine clamps `pass_after` to at least 1 at construction;
iteration `i` (any integers) is classified `fail` by the log parser exactly
when `i < max(1, pass_after)` — with the synthetic failed-assertion line
and a counterexample line in the log — and `pass` otherwise, so with
`pass_after ≤ 1` the first iteration already passes. -/
theorem C10_mock_pass_after_clamped (p i : Int) :
    (mkMockEngine p).pass_after = max 1 p ∧
    (mock_status (mkMockEngine p) i [] = "fail" ↔ i < max 1 p) ∧
    (mock_status (mkMockEngine p) i [] = "pass" ↔ ¬ i < max 1 p) ∧
    (i < max 1 p →
      "assertion p0 failed" ∈ mock_log_lines (mkMockEngine p) i [] ∧
      "counterexample: req=1 ack=0 for 4 cycles" ∈ mock_log_lines (mkMockEngine p) i []) ∧
    (p ≤ 1 → mock_status (mkMockEngine p) 1 [] = "pass") := by
  have hclamp : (mkMockEngine p).pass_after = max 1 p := rfl
  by_cases h : i < max 1 p
  · refine ⟨rfl, ?_, ?_, ?_, ?_⟩
    · simp only [mock_status, mock_log_text, mock_log_lines, hclamp, if_pos h]
      exact ⟨fun _ => h, fun _ => by decide⟩
    · simp only [mock_status, mock_log_text, mock_log_lines, hclamp, if_pos h]
      constructor
      · intro hc
        exact absurd hc (by decide)
      · intro hc
        exact absurd h hc
    · intro _
      simp only [mock_log_lines, hclamp, if_pos h]
      exact ⟨by simp, by simp⟩
    · intro hp
      have h1 : ¬ (1 : Int) < max 1 p := by omega
      simp only [mock_status, mock_log_text, mock_log_lines, hclamp, if_neg h1]
      decide
  · refine ⟨rfl, ?_, ?_, ?_, ?_⟩
    · simp only [mock_status, mock_log_text, mock_log_lines, hclamp, if_neg h]
      constructor
      · intro hc
        exact absurd hc (by decide)
      · intro hc
        exact absurd hc h
    · simp only [mock_status, mock_log_text, mock_log_lines, hclamp, if_neg h]
      exact ⟨fun _ => h, fun _ => by decide⟩
    · intro hc
      exact absurd hc h
    · intro hp
      have h1 : ¬ (1 : Int) < max 1 p := by omega
      simp only [mock_status, mock_log_text, mock_log_lines, hclamp, if_neg h1]
      decide

/-- Witness for `C10_mock_pass_after_clamped`: with `pass_after = 2`,
iteration 1 fails. -/
theorem C10_mock_pass_after_clamped_witness :
    mock_status (mkMockEngine 2) 1 [] = "fail" :=
  (C10_mock_pass_after_clamped 2 1).2.1.mpr (by decide)

/-- Head clause id of a non-empty text parse: the first kept line gets the
counter's successor. -/
theorem parse_text_go_first_id (source : String) (counter : Nat) (lines : List String)
    (h : parse_text_go source counter lines ≠ []) :
    ((parse_text_go source counter lines).map SpecClause.clause_id).head? =
      some ("text_" ++ pad3 (counter + 1)) := by
  induction lines with
  | nil => simp [parse_text_go] at h
  | cons raw rest ih =>
    by_cases h1 : (strip raw).data.isEmpty
    · rw [show parse_text_go source counter (raw :: rest) = parse_text_go source counter rest from
        by simp [parse_text_go, h1]] at h ⊢
      exact ih h
    · by_cases h2 : startsWithStr (strip raw) "#"
      · rw [show parse_text_go source counter (raw :: rest) = parse_text_go source counter rest from
          by simp [parse_text_go, h1, h2]] at h ⊢
        exact ih h
      · simp [parse_text_go, h1, h2]

/-- C5, amended: clause ids restart at `text_001` for every text spec input,
so `load_spec_clauses` (which concatenates per-input parses without
re-keying) returns colliding ids whenever two text inputs each yield at
least one clause — `clause_id` is NOT unique within such a run. -/
theorem C5_clause_ids_collide (pA pB A B : String) (hne : pA ≠ pB)
    (hA : parse_text_spec pA A ≠ []) (hB : parse_text_spec pB B ≠ []) :
    load_spec_clauses (fun p => if p = pA then some A else if p = pB then some B else none)
        [{ kind := "text", path := pA }, { kind := "text", path := pB }] =
      Except.ok (parse_text_spec pA A ++ parse_text_spec pB B) ∧
    "text_001" ∈ (parse_text_spec pA A).map SpecClause.clause_id ∧
    "text_001" ∈ (parse_text_spec pB B).map SpecClause.clause_id ∧
    ¬ ((parse_text_spec pA A ++ parse_text_spec pB B).map SpecClause.clause_id).Nodup := by
  have hBA : pB ≠ pA := fun h => hne h.symm
  have hid : ("text_" ++ pad3 (0 + 1)) = "text_001" := by decide
  have hA1 : ((parse_text_spec pA A).map SpecClause.clause_id).head? = some "text_001" := by
    have := parse_text_go_first_id pA 0 (splitLinesPy A) hA
    rwa [hid] at this
  have hB1 : ((parse_text_spec pB B).map SpecClause.clause_id).head? = some "text_001" := by
    have := parse_text_go_first_id pB 0 (splitLinesPy B) hB
    rwa [hid] at this
  have hAm : "text_001" ∈ (parse_text_spec pA A).map SpecClause.clause_id :=
    List.mem_of_mem_head? (by rw [hA1]; rfl)
  have hBm : "text_001" ∈ (parse_text_spec pB B).map SpecClause.clause_id :=
    List.mem_of_mem_head? (by rw [hB1]; rfl)
  refine ⟨by simp [load_spec_clauses, hBA], hAm, hBm, ?_⟩
  intro hnd
  rw [List.map_append, List.nodup_append] at hnd
  exact hnd.2.2 hAm hBm

/-- Witness for `C5_clause_ids_collide` at two concrete one-clause files. -/
theorem C5_clause_ids_collide_witness :
    ¬ (((parse_text_spec "a.md" "- Never grant and deny.\n" ++
         parse_text_spec "b.md" "- If req then ack next cycle.\n")).map SpecClause.clause_id).Nodup :=
  (C5_clause_ids_collide "a.md" "b.md" "- Never grant and deny.\n" "- If req then ack next cycle.\n"
    (by decide) (by decide) (by decide)).2.2.2

/-- Writing a file leaves exactly the old paths plus the written one. -/
theorem mem_fsPaths_setFile (fs : FileSystem) (p c q : String) :
    q ∈ fsPaths (setFile fs p c) ↔ q ∈ fsPaths fs ∨ q = p := by
  unfold setFile
  by_cases h : (fsPaths fs).contains p
  · rw [if_pos h]
    have hp : p ∈ fsPaths fs := by
      simpa using h
    have hfst : fsPaths (fs.map (fun q' => if q'.1 = p then (p, c) else q')) = fsPaths fs := by
      simp only [fsPaths, List.map_map]
      apply List.map_congr_left
      intro x _
      by_cases hx : x.1 = p
      · simp [hx]
      · simp [hx]
    rw [hfst]
    constructor
    · intro hq
      exact Or.inl hq
    · rintro (hq | rfl)
      · exact hq
      · exact hp
  · rw [if_neg h]
    simp [fsPaths]

/-- C7, amended: the manifest lists exactly the files present in the run
directory when `build_evidence_pack` is called — the `manifest.json` and
the tarball written by the call itself are not among them (a pre-existing
tarball from an earlier pack would be) — and each listed file's recorded
sha256 is the hash of its content at that time; afterwards the run
directory holds exactly the old files plus `evidence/manifest.json` and the
tarball. -/
theorem C7_manifest_lists_precall_files (hash : String → String) (render : EvidenceManifest → String)
    (tar : FileSystem → String) (run_dir config_path : String) (config_sha256 : Option String)
    (run_id : String) (fs : FileSystem) :
    ((build_evidence_pack hash render tar run_dir config_path config_sha256 run_id fs).1.files.map
        ManifestEntry.path = fsPaths fs) ∧
    (∀ pc ∈ fs,
      ({ path := pc.1, sha256 := hash pc.2, size := pc.2.length } : ManifestEntry) ∈
        (build_evidence_pack hash render tar run_dir config_path config_sha256 run_id fs).1.files) ∧
    (manifest_rel_path ∈
      fsPaths (build_evidence_pack hash render tar run_dir config_path config_sha256 run_id fs).2) ∧
    (evidence_tar_path run_id ∈
      fsPaths (build_evidence_pack hash render tar run_dir config_path config_sha256 run_id fs).2) ∧
    (∀ q, q ∈ fsPaths (build_evidence_pack hash render tar run_dir config_path config_sha256 run_id fs).2 ↔
      q ∈ fsPaths fs ∨ q = manifest_rel_path ∨ q = evidence_tar_path run_id) := by
  refine ⟨?_, ?_, ?_, ?_, ?_⟩
  · simp [build_evidence_pack, build_manifest, fsPaths, List.map_map]
  · intro pc hpc
    simp only [build_evidence_pack, build_manifest]
    exact List.mem_map_of_mem _ hpc
  · simp only [build_evidence_pack]
    rw [mem_fsPaths_setFile]
    exact Or.inl ((mem_fsPaths_setFile _ _ _ _).mpr (Or.inr rfl))
  · simp only [build_evidence_pack]
    rw [mem_fsPaths_setFile]
    exact Or.inr rfl
  · intro q
    simp only [build_evidence_pack]
    rw [mem_fsPaths_setFile, mem_fsPaths_setFile]
    tauto

/-- Witness for `C7_manifest_lists_precall_files` at the concrete fresh run
directory of the C7 counterexample. -/
theorem C7_manifest_lists_precall_files_witness :
    c7_result.1.files.map ManifestEntry.path = fsPaths c7_fs0 :=
  (C7_manifest_lists_precall_files (fun s => "h(" ++ s ++ ")") (fun _ => "MANIFEST") (fun _ => "TAR")
    "/runs/r1" "formalchip.toml" none "r1" c7_fs0).1

/-- C9, amended: on a non-empty `current`, `repair` maps every candidate in
place — rewriting exactly those whose name is in
`feedback.failed_properties` by `_repair_body` (which bumps EVERY occurrence
of the first-matched `##[0:N]` window to `##[0:N+2]`, else rewrites `|=>` to
`|-> ##[0:1]`) and annotating their notes — and appends exactly one
`assume` candidate `@(posedge clk) $changed(rst) |-> ##1 $stable(rst);`
when the failed set is non-empty. -/
theorem C9_repair_rewrites_failed (current : List PropertyCandidate) (feedback : IterationFeedback)
    (clauses : List SpecClause) (libraries : List LibraryPattern) (inputs : SynthesisInputs)
    (hne : current ≠ []) :
    (∀ i, i < current.length →
      (deterministic_repair current feedback clauses libraries inputs)[i]? =
        (current[i]?.map (fun prop =>
          if feedback.failed_properties.contains prop.name then
            { prop with body := repair_body prop.body,
                        notes := some (repaired_notes prop.notes feedback.summary) }
          else prop))) ∧
    (feedback.failed_properties = [] →
      deterministic_repair current feedback clauses libraries inputs = current) ∧
    (feedback.failed_properties ≠ [] →
      (deterministic_repair current feedback clauses libraries inputs).length = current.length + 1 ∧
      (deterministic_repair current feedback clauses libraries inputs)[current.length]? =
        some (repair_assume_candidate inputs current.length)) := by
  have hne' : current.isEmpty = false := by
    cases current with
    | nil => exact absurd rfl hne
    | cons a l => rfl
  by_cases hf : feedback.failed_properties = []
  · refine ⟨?_, ?_, ?_⟩
    · intro i hi
      simp [deterministic_repair, hne', hf]
    · intro _
      simp [deterministic_repair, hne', hf]
    · intro hc
      exact absurd hf hc
  · have hf' : feedback.failed_properties.isEmpty = false := by
      cases h : feedback.failed_properties with
      | nil => exact absurd h hf
      | cons a l => rfl
    refine ⟨?_, ?_, ?_⟩
    · intro i hi
      have hi' : i < (current.map (fun prop =>
          if feedback.failed_properties.contains prop.name then
            { prop with body := repair_body prop.body,
                        notes := some (repaired_notes prop.notes feedback.summary) }
          else prop)).length := by simpa using hi
      simp only [deterministic_repair, hne', hf', Bool.false_eq_true, if_false, Bool.not_false,
        if_true]
      rw [List.getElem?_append, if_pos hi']
      simp
    · intro hc
      exact absurd hc hf
    · intro _
      constructor
      · simp [deterministic_repair, hne', hf']
      · have hlen : (current.map (fun prop =>
            if feedback.failed_properties.contains prop.name then
              { prop with body := repair_body prop.body,
                          notes := some (repaired_notes prop.notes feedback.summary) }
            else prop)).length = current.length := by simp
        simp only [deterministic_repair, hne', hf', Bool.false_eq_true, if_false, Bool.not_false,
          if_true]
        rw [← hlen, List.getElem?_concat_length, hlen]

/-- Witness for `C9_repair_rewrites_failed`: the failed `q1` of the concrete
current list is rewritten in place. -/
theorem C9_repair_rewrites_failed_witness :
    (deterministic_repair c9w_current c9w_feedback [] [] c9_inputs)[0]? =
      (c9w_current[0]?.map (fun prop =>
        if c9w_feedback.failed_properties.contains prop.name then
          { prop with body := repair_body prop.body,
                      notes := some (repaired_notes prop.notes c9w_feedback.summary) }
        else prop)) :=
  (C9_repair_rewrites_failed c9w_current c9w_feedback [] [] c9_inputs (by decide)).1 0 (by decide)

/-- The name-dedup pass keeps the candidate count. -/
theorem uniquify_names_length (seen : List String) (l : List PropertyCandidate) :
    (uniquify_names seen l).length = l.length := by
  induction l generalizing seen with
  | nil => rfl
  | cons c rest ih => simp [uniquify_names, ih]

/-- Every text clause yields exactly one candidate (real or placeholder). -/
theorem text_clause_len (clause : SpecClause) (inputs : SynthesisInputs) :
    (text_clause_to_candidates clause inputs).length = 1 := by
  simp only [text_clause_to_candidates]
  split
  · split <;> rfl
  · split
    · split <;> rfl
    · split
      · split <;> rfl
      · split
        · split <;> rfl
        · rfl

/-- Clauses of the text ingestor are tagged `text`. -/
theorem parse_text_go_tags (source : String) (counter : Nat) (lines : List String) :
    ∀ c ∈ parse_text_go source counter lines, c.tags = ["text"] := by
  induction lines generalizing counter with
  | nil => intro c hc; simp [parse_text_go] at hc
  | cons raw rest ih =>
    intro c hc
    by_cases h1 : (strip raw).data.isEmpty
    · rw [show parse_text_go source counter (raw :: rest) = parse_text_go source counter rest from
        by simp [parse_text_go, h1]] at hc
      exact ih counter c hc
    · by_cases h2 : startsWithStr (strip raw) "#"
      · rw [show parse_text_go source counter (raw :: rest) = parse_text_go source counter rest from
          by simp [parse_text_go, h1, h2]] at hc
        exact ih counter c hc
      · simp only [parse_text_go, h1, h2] at hc
        simp only [Bool.false_eq_true, if_false, List.mem_cons] at hc
        rcases hc with rfl | hc
        · rfl
        · exact ih (counter + 1) c hc

/-- A `text`-tagged clause goes down the text path of the dispatch. -/
theorem clause_dispatch_text (c : SpecClause) (inputs : SynthesisInputs) (h : c.tags = ["text"]) :
    clause_to_candidates c inputs = text_clause_to_candidates c inputs := by
  unfold clause_to_candidates
  rw [h]
  rfl

/-- With text clauses only and no libraries, synthesis yields one candidate
per clause. -/
theorem synthesize_text_length (clauses : List SpecClause) (inputs : SynthesisInputs)
    (h : ∀ c ∈ clauses, c.tags = ["text"]) :
    (synthesize_candidates clauses [] inputs).length = clauses.length := by
  unfold synthesize_candidates
  rw [uniquify_names_length]
  simp only [List.map_nil, List.flatten_nil, List.append_nil]
  induction clauses with
  | nil => rfl
  | cons c rest ih =>
    simp only [List.map_cons, List.flatten_cons, List.length_append]
    rw [clause_dispatch_text c inputs (h c (List.mem_cons_self _ _)), text_clause_len,
      ih (fun c' hc' => h c' (List.mem_cons.mpr (Or.inr hc')))]
    simp only [List.length_cons]
    omega

/-- `optimize_candidates` always keeps the first candidate of a non-empty
list, so its result is non-empty. -/
theorem optimize_candidates_ne_nil (l : List PropertyCandidate) (h : l ≠ []) :
    optimize_candidates l ≠ [] := by
  cases l with
  | nil => exact absurd rfl h
  | cons c rest =>
    unfold optimize_candidates optimize_go
    by_cases hp : is_placeholder_candidate c <;> simp [hp]

/-- C8: with `clk`, `rst_n`, `req` and `ack` all known, the text spec
`"- If req then ack next cycle.\n"` synthesises to exactly one candidate —
kind `assert`, body `@(posedge clk) disable iff(!rst_n) req |=> ack;` — and
it is not a placeholder. -/
theorem C8_text_clause_candidate (ks : List String)
    (hclk : "clk" ∈ ks) (hrst : "rst_n" ∈ ks) (hreq : "req" ∈ ks) (hack : "ack" ∈ ks) :
    synthesize_candidates (parse_text_spec "spec.md" "- If req then ack next cycle.\n") []
        { clock := "clk", reset := "rst_n", reset_active_low := true, known_signals := ks } =
      [{ prop_id := "text_001", name := "text_001_req_implies_ack",
         body := "@(posedge clk) disable iff(!rst_n) req |=> ack;", kind := .assert,
         source_clause := some "text_001", notes := none }] ∧
    is_placeholder_candidate
      { prop_id := "text_001", name := "text_001_req_implies_ack",
        body := "@(posedge clk) disable iff(!rst_n) req |=> ack;", kind := .assert,
        source_clause := some "text_001", notes := none } = false := by
  have hkse : ks.isEmpty = false := by
    cases ks with
    | nil => cases hreq
    | cons a l => rfl
  have hmiss : missing_signals ["req", "ack"] ks = [] := by
    simp only [missing_signals, hkse, Bool.false_eq_true, if_false]
    simp
    exact ⟨hreq, hack⟩
  have hparse : parse_text_spec "spec.md" "- If req then ack next cycle.\n" =
      [{ clause_id := "text_001", text := "If req then ack next cycle.", source := "spec.md",
         tags := ["text"], metadata := {} }] := by decide
  have hsearch : regexSearch if_then_next_at (lowerStr (strip "If req then ack next cycle.")) =
      some ("req", "ack") := by decide
  refine ⟨?_, by decide⟩
  rw [hparse]
  unfold synthesize_candidates
  simp only [List.map_cons, List.map_nil, List.flatten_cons, List.flatten_nil, List.append_nil]
  rw [clause_dispatch_text _ _ rfl]
  unfold text_clause_to_candidates
  dsimp only
  rw [hsearch]
  dsimp only
  have hres : ∀ s, resolve_signal_name
      { clock := "clk", reset := "rst_n", reset_active_low := true, known_signals := ks,
        signal_aliases := [] } s = s := fun s => rfl
  simp only [required_signals, List.map_cons, List.map_nil, hres]
  rw [hmiss]
  rfl

/-- Witness for `C8_text_clause_candidate` at the concrete signal set of the
claim. -/
theorem C8_text_clause_candidate_witness :
    synthesize_candidates (parse_text_spec "spec.md" "- If req then ack next cycle.\n") []
        { clock := "clk", reset := "rst_n", reset_active_low := true,
          known_signals := ["clk", "rst_n", "req", "ack"] } =
      [{ prop_id := "text_001", name := "text_001_req_implies_ack",
         body := "@(posedge clk) disable iff(!rst_n) req |=> ack;", kind := .assert,
         source_clause := some "text_001", notes := none }] :=
  (C8_text_clause_candidate ["clk", "rst_n", "req", "ack"] (by decide) (by decide) (by decide)
    (by decide)).1

/-- C6, amended: whenever the RTL file exists but does not declare the top
module — mock engine, deterministic backend, a text spec with at least one
clause — `run_doctor` reports the top-module message as a WARNING while
`errors` stays empty, so `DoctorReport.ok` is true: top-module absence is
not fatal. -/
theorem C6_top_module_absent_is_warning (top rtl spec : String)
    (scan : String → List String) (pathHas : String → Bool)
    (htop : module_decl_search top rtl = false)
    (hspec : parse_text_spec "spec.md" spec ≠ []) :
    (run_doctor (c6_fs rtl spec) pathHas scan (c6_config top)).errors = [] ∧
    (run_doctor (c6_fs rtl spec) pathHas scan (c6_config top)).ok = true ∧
    ("Top module `" ++ top ++ "` was not found by simple scan in provided RTL files.") ∈
      (run_doctor (c6_fs rtl spec) pathHas scan (c6_config top)).warnings := by
  have hclauses : load_spec_clauses (c6_fs rtl spec) (c6_config top).specs =
      Except.ok (parse_text_spec "spec.md" spec) := by
    simp [load_spec_clauses, c6_config, c6_fs]
  have htags : ∀ c ∈ parse_text_spec "spec.md" spec, c.tags = ["text"] :=
    parse_text_go_tags "spec.md" 0 (splitLinesPy spec)
  have hlibs : libraries_with_constraints (c6_config top) = [] := rfl
  obtain ⟨init, hinit, hcand⟩ :
      ∃ init, build_initial_synthesis scan (c6_fs rtl spec) (c6_config top) = Except.ok init ∧
        init.candidates ≠ [] := by
    unfold build_initial_synthesis
    rw [hclauses]
    refine ⟨_, rfl, ?_⟩
    dsimp only
    rw [hlibs]
    apply optimize_candidates_ne_nil
    intro hnil
    have hlen := congrArg List.length hnil
    rw [synthesize_text_length _ _ htags] at hlen
    simp only [List.length_nil] at hlen
    exact hspec (List.length_eq_zero.mp hlen)
  have hmain : (run_doctor (c6_fs rtl spec) pathHas scan (c6_config top)).errors = [] ∧
      ("Top module `" ++ top ++ "` was not found by simple scan in provided RTL files.") ∈
        (run_doctor (c6_fs rtl spec) pathHas scan (c6_config top)).warnings := by
    unfold run_doctor
    rw [hinit]
    simp [c6_config, c6_fs, htop, hcand,
      show lowerStr (strip "mock") = "mock" from rfl,
      show lowerStr (strip "deterministic") = "deterministic" from rfl,
      show pyTruthy none = false from rfl,
      show pyOr none "sby" = "sby" from rfl,
      show sorted_set [] = ([] : List String) from rfl]
  exact ⟨hmain.1, by simp [DoctorReport.ok, hmain.1], hmain.2⟩

/-- Witness for `C6_top_module_absent_is_warning` at a concrete RTL file
without the top module. -/
theorem C6_top_module_absent_is_warning_witness :
    (run_doctor (c6_fs "module other(input logic clk);\nendmodule\n" "- If req then ack next cycle.\n")
        (fun _ => true) (fun _ => ["clk", "rst_n", "req", "ack"]) (c6_config "top")).ok = true :=
  (C6_top_module_absent_is_warning "top" "module other(input logic clk);\nendmodule\n"
    "- If req then ack next cycle.\n" (fun _ => ["clk", "rst_n", "req", "ack"]) (fun _ => true)
    (by decide) (by decide)).2.1
